import Mathlib

/-!
# Cerberus-Orbit: the gesture navigation controller

A shallow embedding of `GestureHandler.handleGestureData` (src/web/gestures.js)
together with the part of `SceneManager` (src/web/scene.js) that it reads and
writes.

Conventions of the embedding.

* JavaScript numbers are idealised as elements of a linearly ordered field `K`
  (exact arithmetic, no rounding, no NaN).  Every definition is computable and
  runs on `ℚ`; the theorems hold for every such field, the reals included.
* `Math.sqrt` is the one operation of the handler that does not exist on `ℚ`.
  It is a parameter `sqrt : K → K` of the handler; a theorem that needs a
  property of the square root states it as a hypothesis.
* `this.lastX` and `this.lastY` are written together at every assignment of the
  source (gestures.js lines 12-13, 76-77, 136-137, 143-144, 160-161, 211-212,
  216-217, 237-238), and only `this.lastX === undefined` is ever tested.  They
  are kept as one optional pair `last`; `lastX` and `lastY` project it.
* `SceneManager` (scene.js:61-79) creates `camera`, `controls` and
  `currentGroup` before it creates the handler and never clears them, so they
  are plain fields; the handler's guards `if (!controls) return` (line 124) and
  `if (this.sceneManager.currentGroup)` (line 149) always pass.
* Scene meshes are named by a number.  `emissive m` is the colour held by
  `m.material.emissive`, and `none` when the material has no such property
  (`MeshBasicMaterial`, used for the Sun in solar_system.js:82): calling
  `setHex` on it raises a `TypeError`, which `ws.onmessage` catches.  The
  handler's writes made before the exception stay in place, so an outcome
  carries the world in both cases.
* What THREE.js derives from geometry and orientation that the embedding does
  not hold (the ray cast, the camera basis and its world direction) and the
  window size are read from a `Frame`, one per handled sample.
* `OrbitControls.update()` is taken to commit the rig without moving camera
  position or orbit target.  The status element `gesture-debug` is taken to be
  on the page (every path writes to it unguarded); the cursor element may be
  missing, as the code allows.  The video preview `<img>` and style properties
  that are plain text (colours, shadows, `display`, `transform`) are left out.
-/

namespace CerberusOrbit

/-! ## THREE.Vector3 -/

/-- Three-component vector, as `THREE.Vector3`. -/
structure Vector3 (K : Type) where
  x : K
  y : K
  z : K
deriving DecidableEq, Repr

namespace Vector3

variable {K : Type} [LinearOrderedField K]

/-- Method `a.addScaledVector(v, s)`: `a.x += v.x * s`, and so on. -/
def addScaledVector (a v : Vector3 K) (s : K) : Vector3 K :=
  ⟨a.x + v.x * s, a.y + v.y * s, a.z + v.z * s⟩

/-- Method `new Vector3().subVectors(a, b)`: componentwise `a - b`. -/
def subVectors (a b : Vector3 K) : Vector3 K :=
  ⟨a.x - b.x, a.y - b.y, a.z - b.z⟩

/-- Method `a.lerp(v, alpha)`: `a.x += (v.x - a.x) * alpha`, and so on. -/
def lerp (a v : Vector3 K) (alpha : K) : Vector3 K :=
  ⟨a.x + (v.x - a.x) * alpha, a.y + (v.y - a.y) * alpha, a.z + (v.z - a.z) * alpha⟩

/-- Method `a.multiplyScalar(s)`. -/
def multiplyScalar (a : Vector3 K) (s : K) : Vector3 K :=
  ⟨a.x * s, a.y * s, a.z * s⟩

/-- Method `a.divideScalar(s)`, which THREE.js computes as `multiplyScalar(1 / s)`. -/
def divideScalar (a : Vector3 K) (s : K) : Vector3 K :=
  a.multiplyScalar (1 / s)

/-- Method `a.lengthSq()`. -/
def lengthSq (a : Vector3 K) : K :=
  a.x * a.x + a.y * a.y + a.z * a.z

/-- Method `a.length()`: `Math.sqrt` of the squared length. -/
def length (sqrt : K → K) (a : Vector3 K) : K :=
  sqrt a.lengthSq

/-- Method `a.normalize()`: `divideScalar(length() || 1)`. -/
def normalize (sqrt : K → K) (a : Vector3 K) : Vector3 K :=
  a.divideScalar (if a.length sqrt = 0 then 1 else a.length sqrt)

/-- Method `a.distanceToSquared(v)`. -/
def distanceToSquared (a v : Vector3 K) : K :=
  let dx := a.x - v.x
  let dy := a.y - v.y
  let dz := a.z - v.z
  dx * dx + dy * dy + dz * dz

/-- Method `a.distanceTo(v)`: `Math.sqrt` of the squared distance. -/
def distanceTo (sqrt : K → K) (a v : Vector3 K) : K :=
  sqrt (a.distanceToSquared v)

end Vector3

/-! ## The data the handler works on -/

/-- One parsed message of the gesture server (gestures.js:37-38, 57). -/
structure Sample (K : Type) where
  is_tracking : Bool
  x : K
  y : K
  gesture : String
  pinch_dist : Option K
  image : Option String

/-- The fields of `GestureHandler` set up by its constructor (gestures.js:11-22). -/
structure GestureHandler (K : Type) where
  last : Option (K × K)
  lastZ : Option K
  lastPinchDist : Option K
  hoveredPlanet : Option Nat
  selectedPlanet : Option Nat
  selectionTime : Nat
  isPanning : Bool

/-- The value of `this.lastX`. -/
def GestureHandler.lastX {K : Type} (h : GestureHandler K) : Option K :=
  h.last.map Prod.fst

/-- The value of `this.lastY`. -/
def GestureHandler.lastY {K : Type} (h : GestureHandler K) : Option K :=
  h.last.map Prod.snd

/-- The handler as the constructor leaves it (gestures.js:4-23). -/
def GestureHandler.init (K : Type) : GestureHandler K where
  last := none
  lastZ := none
  lastPinchDist := none
  hoveredPlanet := none
  selectedPlanet := none
  selectionTime := 0
  isPanning := false

/-- The camera: only its position is held. -/
structure Camera (K : Type) where
  position : Vector3 K

/-- The orbit controls: only the orbit target is held. -/
structure OrbitControls (K : Type) where
  target : Vector3 K

/-- Euler angles of the scene group that the handler writes. -/
structure Euler (K : Type) where
  x : K
  y : K

/-- The group `sceneManager.currentGroup`. -/
structure Group (K : Type) where
  rotation : Euler K

/-- The part of `SceneManager` the handler touches (scene.js:61-79). -/
structure SceneManager (K : Type) where
  camera : Camera K
  controls : OrbitControls K
  currentGroup : Group K

/-- Numeric style of the element `gesture-cursor`. -/
structure Cursor (K : Type) where
  opacity : K
  left : K
  top : K
  width : K
  height : K

/-- Text written to the element `gesture-debug`. -/
inductive Status (K : Type) where
  | initial
  | noHand
  | mode (gesture : String)
  | rotating
  | navigating
  | traveling (name : String)
  | throttle (pinch_dist : K)

/-- Everything a call of the handler can read or write. -/
structure World (K : Type) where
  handler : GestureHandler K
  sceneManager : SceneManager K
  emissive : Nat → Option Nat
  cursor : Option (Cursor K)
  debug : Status K

/-- One entry of the array returned by `raycaster.intersectObjects`. -/
structure Intersection (K : Type) where
  object : Nat
  name : String
  worldPosition : Vector3 K

/-- What the handler reads from the browser and from THREE.js during one call. -/
structure Frame (K : Type) where
  innerWidth : K
  innerHeight : K
  /-- Result of `setFromCamera` at the given point followed by
  `intersectObjects(planets)`, nearest hit first. -/
  intersectObjects : K → K → List (Intersection K)
  /-- First column of `camera.matrix` (extractBasis). -/
  right : Vector3 K
  /-- Second column of `camera.matrix` (extractBasis). -/
  up : Vector3 K
  /-- Result of `camera.getWorldDirection`. -/
  dir : Vector3 K

/-- How a call of the handler ends: it returns, or an exception leaves it. -/
inductive Outcome (α : Type) where
  | returned (w : α)
  | threw (w : α)

/-- The world a call leaves behind, however it ended. -/
def Outcome.world {α : Type} : Outcome α → α
  | .returned w => w
  | .threw w => w

/-- Whether the call ended by returning. -/
def Outcome.isReturned {α : Type} : Outcome α → Bool
  | .returned _ => true
  | .threw _ => false

/-- Method `obj.material.emissive.setHex(hex)`: fails when the material of `obj` has no
emissive colour. -/
def setHex (emissive : Nat → Option Nat) (obj hex : Nat) : Option (Nat → Option Nat) :=
  match emissive obj with
  | none => none
  | some _ => some (fun o => if o = obj then some hex else emissive o)

section Handler

variable {K : Type} [LinearOrderedField K]

/-! ## Cursor placement (gestures.js:82-121) -/

/-- Local `screenX` of gestures.js:91. -/
def screenX (f : Frame K) (data : Sample K) : K :=
  (data.x + 1) * 0.5 * f.innerWidth

/-- Local `screenY` of gestures.js:92. -/
def screenY (f : Frame K) (data : Sample K) : K :=
  (1 - (data.y + 1) * 0.5) * f.innerHeight

/-- The cursor element after lines 82-121 of gestures.js (tracked sample). -/
def updateCursor (f : Frame K) (data : Sample K) (c : Cursor K) : Cursor K :=
  let c1 : Cursor K := { c with opacity := 0.8 }
  let c2 : Cursor K := { c1 with left := screenX f data, top := screenY f data }
  if data.gesture = "GRAB" then
    { c2 with width := 20, height := 20 }
  else
    let size : K :=
      match data.pinch_dist with
      | some p => 10 + p * 400
      | none => 10
    { c2 with width := size, height := size }

/-! ## Throttle zoom (gestures.js:245-278) -/

/-- Local `upperThreshold` of gestures.js:246. -/
def upperThreshold : K := 0.12

/-- Local `lowerThreshold` of gestures.js:247. -/
def lowerThreshold : K := 0.06

/-- Local `maxSpeed` of gestures.js:267. -/
def maxSpeed : K := 20.0

/-- Local `minDistance` of gestures.js:275. -/
def minDistance : K := 5.0

/-- The value of `throttle` after gestures.js:245-253. -/
def throttle (pinch_dist : K) : K :=
  if pinch_dist > upperThreshold then
    (pinch_dist - upperThreshold) * 6.0
  else if pinch_dist < lowerThreshold then
    (pinch_dist - lowerThreshold) * 12.0
  else
    0

/-- The value of `moveSpeed` after gestures.js:260-265 (distance factor and the
zoom-out adjustment). -/
def moveSpeedBase (throttle distToTarget : K) : K :=
  let distFactor := min distToTarget 500 * 0.08
  let moveSpeed := throttle * distFactor
  if throttle < 0 then min moveSpeed (throttle * 2.0) else moveSpeed

/-- The value of `moveSpeed` after gestures.js:267-268 (clamp to `maxSpeed`). -/
def moveSpeedClamped (throttle distToTarget : K) : K :=
  max (-maxSpeed) (min maxSpeed (moveSpeedBase throttle distToTarget))

/-- The value of `moveSpeed` after gestures.js:270-272 (the 80% test). -/
def moveSpeedGuarded (throttle distToTarget : K) : K :=
  let moveSpeed := moveSpeedClamped throttle distToTarget
  if moveSpeed > 0 ∧ moveSpeed > distToTarget * 0.8 then distToTarget * 0.2 else moveSpeed

/-- The value of `moveSpeed` after gestures.js:274-278, the one passed to
`addScaledVector` at line 280. -/
def moveSpeed (throttle distToTarget : K) : K :=
  let moveSpeed := moveSpeedGuarded throttle distToTarget
  if moveSpeed > 0 ∧ distToTarget - moveSpeed < minDistance then
    max 0 (distToTarget - minDistance)
  else
    moveSpeed

/-! ## handleGestureData (gestures.js:57-287) -/

/-- Lines 129-154: the `GRAB` branch. -/
def handleGrab (w : World K) (data : Sample K) : Outcome (World K) :=
  let w1 : World K := { w with debug := .rotating }
  let w2 : World K := { w1 with handler := { w1.handler with lastPinchDist := none } }
  match w2.handler.last with
  | none =>
    .returned { w2 with handler := { w2.handler with last := some (data.x, data.y) } }
  | some (lastX, lastY) =>
    let deltaX := data.x - lastX
    let deltaY := data.y - lastY
    let w3 : World K := { w2 with handler := { w2.handler with last := some (data.x, data.y) } }
    let rotateSens : K := 2.5
    if |deltaX| > 0.0001 ∨ |deltaY| > 0.0001 then
      let r := w3.sceneManager.currentGroup.rotation
      let r1 : Euler K := { r with y := r.y + deltaX * rotateSens }
      let r2 : Euler K := { r1 with x := r1.x + deltaY * rotateSens }
      .returned { w3 with sceneManager := { w3.sceneManager with currentGroup := { rotation := r2 } } }
    else
      .returned w3

/-- Lines 178-201: the ray hit a mesh. -/
def handleHover (sqrt : K → K) (w : World K) (hit : Intersection K) : Outcome (World K) :=
  let planet := hit.object
  -- line 182-184: switch the highlight of the mesh hovered before off
  let cleared : Option (Nat → Option Nat) :=
    match w.handler.hoveredPlanet with
    | some old => if old ≠ planet then setHex w.emissive old 0x000000 else some w.emissive
    | none => some w.emissive
  match cleared with
  | none => .threw w
  | some e1 =>
    let w1 : World K :=
      { w with emissive := e1, handler := { w.handler with hoveredPlanet := some planet } }
    -- line 186
    match setHex w1.emissive planet 0x444400 with
    | none => .threw w1
    | some e2 =>
      let w2 : World K := { w1 with emissive := e2 }
      -- line 189
      let w3 : World K :=
        { w2 with handler := { w2.handler with selectionTime := w2.handler.selectionTime + 1 } }
      if w3.handler.selectionTime > 30 then
        let targetPos := hit.worldPosition
        let target := w3.sceneManager.controls.target.lerp targetPos 0.1
        let camDir := (Vector3.subVectors targetPos w3.sceneManager.camera.position).normalize sqrt
        let position := w3.sceneManager.camera.position.addScaledVector camDir 1.0
        .returned
          { w3 with
            debug := .traveling hit.name
            sceneManager :=
              { w3.sceneManager with controls := { target := target }, camera := { position := position } } }
      else
        .returned w3

/-- Lines 202-230: the ray hit nothing. -/
def handlePan (f : Frame K) (w : World K) (data : Sample K) : Outcome (World K) :=
  -- line 204-207
  let released : Option (World K) :=
    match w.handler.hoveredPlanet with
    | some old =>
      match setHex w.emissive old 0x000000 with
      | none => none
      | some e1 => some { w with emissive := e1, handler := { w.handler with hoveredPlanet := none } }
    | none => some w
  match released with
  | none => .threw w
  | some w1 =>
    -- line 208
    let w2 : World K := { w1 with handler := { w1.handler with selectionTime := 0 } }
    match w2.handler.last with
    | none =>
      .returned { w2 with handler := { w2.handler with last := some (data.x, data.y) } }
    | some (lastX, lastY) =>
      let dx := data.x - lastX
      let dy := data.y - lastY
      let w3 : World K := { w2 with handler := { w2.handler with last := some (data.x, data.y) } }
      let panSpeed : K := 50.0
      let position :=
        (w3.sceneManager.camera.position.addScaledVector f.right (-dx * panSpeed)).addScaledVector
          f.up (dy * panSpeed)
      let target :=
        (w3.sceneManager.controls.target.addScaledVector f.right (-dx * panSpeed)).addScaledVector
          f.up (dy * panSpeed)
      .returned
        { w3 with
          sceneManager :=
            { w3.sceneManager with controls := { target := target }, camera := { position := position } } }

/-- Lines 156-231: the `POINT` branch. -/
def handlePoint (sqrt : K → K) (f : Frame K) (w : World K) (data : Sample K) : Outcome (World K) :=
  let w1 : World K := { w with debug := .navigating }
  -- line 160-162
  let w2 : World K := { w1 with handler := { w1.handler with last := none, lastPinchDist := none } }
  let ndcX := data.x
  let ndcY := -data.y
  match f.intersectObjects ndcX ndcY with
  | hit :: _ => handleHover sqrt w2 hit
  | [] => handlePan f w2 data

/-- Local `distToTarget` of gestures.js:256. -/
def distToTarget (sqrt : K → K) (w : World K) : K :=
  w.sceneManager.camera.position.distanceTo sqrt w.sceneManager.controls.target

/-- Lines 233-286: every other gesture. -/
def handleThrottle (sqrt : K → K) (f : Frame K) (w : World K) (data : Sample K) : Outcome (World K) :=
  match data.pinch_dist with
  | none => .returned w
  | some pinch_dist =>
    let w1 : World K := { w with debug := .throttle pinch_dist }
    let w2 : World K := { w1 with handler := { w1.handler with last := none } }
    let throttle := throttle pinch_dist
    if |throttle| > 0.005 then
      let distToTarget := distToTarget sqrt w2
      let position :=
        w2.sceneManager.camera.position.addScaledVector f.dir (moveSpeed throttle distToTarget)
      .returned { w2 with sceneManager := { w2.sceneManager with camera := { position := position } } }
    else
      .returned w2

/-- The method `handleGestureData(data)` of gestures.js:57-287. -/
def handleGestureData (sqrt : K → K) (f : Frame K) (w : World K) (data : Sample K) :
    Outcome (World K) :=
  if !data.is_tracking then
    -- line 69-80
    .returned
      { w with
        debug := .noHand
        cursor := w.cursor.map fun c => { c with opacity := 0 }
        handler := { w.handler with last := none, lastPinchDist := none } }
  else
    -- line 82-121
    let w1 : World K :=
      { w with cursor := w.cursor.map (updateCursor f data), debug := .mode data.gesture }
    if data.gesture = "GRAB" then
      handleGrab w1 data
    else if data.gesture = "POINT" then
      handlePoint sqrt f w1 data
    else
      handleThrottle sqrt f w1 data

/-- The world after handling a list of samples in order, each with the frame it
arrived in. -/
def handleAll (sqrt : K → K) (w : World K) : List (Frame K × Sample K) → World K
  | [] => w
  | (f, data) :: rest => handleAll sqrt (handleGestureData sqrt f w data).world rest

end Handler

/-! ## Concrete inputs, for running the handler on `ℚ` -/

/-- Newton iteration for the integer square root, at most `fuel` steps. -/
def isqrtAux : Nat → Nat → Nat → Nat
  | 0, _, guess => guess
  | fuel + 1, n, guess =>
    let next := (guess + n / guess) / 2
    if next < guess then isqrtAux fuel n next else guess

/-- Integer square root (rounded down). -/
def isqrt (n : Nat) : Nat :=
  if n ≤ 1 then n else isqrtAux n n (n / 2)

/-- A square root on `ℚ` that is exact on squares of rationals. -/
def sqrtExact (q : ℚ) : ℚ :=
  (isqrt q.num.natAbs : ℚ) / (isqrt q.den : ℚ)

/-- The scene as `loadModeContent` leaves it (scene.js:121-122) but with the
camera at `position`, and a handler fresh from its constructor.  Mesh 0 stands
for the Sun, whose material has no emissive colour. -/
def worldAt (position : Vector3 ℚ) : World ℚ where
  handler := GestureHandler.init ℚ
  sceneManager :=
    { camera := { position := position }
      controls := { target := ⟨0, 0, 0⟩ }
      currentGroup := { rotation := ⟨0, 0⟩ } }
  emissive := fun o => if o = 0 then none else some 0
  cursor := some ⟨0, 0, 0, 0, 0⟩
  debug := .initial

/-- The world right after `new SceneManager()` in SOLAR mode (scene.js:121). -/
def solarWorld : World ℚ := worldAt ⟨0, 50, 100⟩

/-- A frame of an 800 by 600 window in which the ray hits nothing, seen by a
camera that looks down the negative z axis. -/
def emptySpace : Frame ℚ where
  innerWidth := 800
  innerHeight := 600
  intersectObjects := fun _ _ => []
  right := ⟨1, 0, 0⟩
  up := ⟨0, 1, 0⟩
  dir := ⟨0, 0, -1⟩

/-- A tracked sample. -/
def tracked (gesture : String) (x y : ℚ) (pinch_dist : Option ℚ) : Sample ℚ where
  is_tracking := true
  x := x
  y := y
  gesture := gesture
  pinch_dist := pinch_dist
  image := none

/-- A sample sent while no hand is seen. -/
def lostSample (x y : ℚ) : Sample ℚ where
  is_tracking := false
  x := x
  y := y
  gesture := "NEUTRAL"
  pinch_dist := some (1 / 2)
  image := none

/-! ## Theorems -/

/-! ## Notions used to state the properties -/

section Notions

variable {K : Type} [LinearOrderedField K]

/-- Local `ndcX` of gestures.js:165. -/
def ndcX (data : Sample K) : K :=
  data.x

/-- Local `ndcY` of gestures.js:166. -/
def ndcY (data : Sample K) : K :=
  -data.y

/-- The entry `intersects[0]` that the POINT branch reads (gestures.js:176-179),
if the ray cast at `(ndcX, ndcY)` hit anything. -/
def nearestHit (f : Frame K) (data : Sample K) : Option (Intersection K) :=
  (f.intersectObjects (ndcX data) (ndcY data)).head?

/-- Viewport column of a normalized device x coordinate, as
`Raycaster.setFromCamera` reads it: `-1` is the left edge, `1` the right one. -/
def ndcColumn (f : Frame K) (ndcX : K) : K :=
  (ndcX + 1) / 2 * f.innerWidth

/-- Viewport row of a normalized device y coordinate, as
`Raycaster.setFromCamera` reads it: `1` is the top row, `-1` the bottom one. -/
def ndcRow (f : Frame K) (ndcY : K) : K :=
  (1 - ndcY) / 2 * f.innerHeight

/-- What `Math.sqrt` returns at `x` in exact arithmetic: the non-negative root. -/
def SqrtAt (sqrt : K → K) (x : K) : Prop :=
  0 ≤ sqrt x ∧ sqrt x * sqrt x = x

/-- The sample `fd.2` is a tracked POINT sample whose ray, in frame `fd.1`, hits
mesh `obj` first. -/
def Hovers (obj : Nat) (fd : Frame K × Sample K) : Prop :=
  fd.2.is_tracking = true ∧ fd.2.gesture = "POINT" ∧
    (nearestHit fd.1 fd.2).map (fun hit => hit.object) = some obj

/-- The sample hovers mesh `obj` while the world position of the mesh is `p`. -/
def HoversAt (obj : Nat) (p : Vector3 K) (fd : Frame K × Sample K) : Prop :=
  Hovers obj fd ∧ (nearestHit fd.1 fd.2).map (fun hit => hit.worldPosition) = some p

/-- Every sample of the run is a tracked GRAB sample whose pointer is within
`0.0001` of the pointer before it on both axes, the first one being measured
from `prev` (the test of gestures.js:148 fails at every step). -/
def SubThreshold : K × K → List (Frame K × Sample K) → Prop
  | _, [] => True
  | prev, (_, data) :: rest =>
    data.is_tracking = true ∧ data.gesture = "GRAB" ∧
      |data.x - prev.1| ≤ 0.0001 ∧ |data.y - prev.2| ≤ 0.0001 ∧
      SubThreshold (data.x, data.y) rest

/-- The pointer of the last sample of a run, or `prev` for the empty run. -/
def finalPointer : K × K → List (Frame K × Sample K) → K × K
  | prev, [] => prev
  | _, (_, data) :: rest => finalPointer (data.x, data.y) rest

/-- A run of `n` tracked GRAB samples in frame `f`, each `0.0001` further along
x than the pointer before it, the first one starting from `(x, y)`. -/
def creep (f : Frame K) (x y : K) : Nat → List (Frame K × Sample K)
  | 0 => []
  | n + 1 =>
    (f, { is_tracking := true, x := x + 0.0001, y := y, gesture := "GRAB",
          pinch_dist := none, image := none }) :: creep f (x + 0.0001) y n

end Notions

/-- The world `w` with the handler hovering mesh `obj` for `ticks` samples. -/
def hovering (obj ticks : Nat) (w : World ℚ) : World ℚ :=
  { w with handler := { w.handler with hoveredPlanet := some obj, selectionTime := ticks } }

/-- A frame like `emptySpace` in which the ray hits the mesh `obj`, whose world
position is `position`, and nothing else. -/
def frameHitting (obj : Nat) (name : String) (position : Vector3 ℚ) : Frame ℚ :=
  { emptySpace with intersectObjects := fun _ _ => [⟨obj, name, position⟩] }

/-- The world `w` with the pointer `(x, y)` latched in the handler. -/
def latched (x y : ℚ) (w : World ℚ) : World ℚ :=
  { w with handler := { w.handler with last := some (x, y) } }

theorem lastX_eq_none_iff {K : Type} (h : GestureHandler K) :
    h.lastX = none ↔ h.last = none := by
  simp [GestureHandler.lastX]

section Theorems

variable {K : Type} [LinearOrderedField K]

/-- C4: a sample with `is_tracking = false` returns without touching camera
position, orbit target or scene rotation, and leaves `lastX`, `lastY` and
`lastPinchDist` undefined, whatever the state, the camera and the other fields
of the sample. -/
theorem tracking_lost_clears_history (sqrt : K → K) (f : Frame K) (w : World K)
    (data : Sample K) (h : data.is_tracking = false) :
    (handleGestureData sqrt f w data).isReturned = true ∧
    (handleGestureData sqrt f w data).world.sceneManager.camera.position
      = w.sceneManager.camera.position ∧
    (handleGestureData sqrt f w data).world.sceneManager.controls.target
      = w.sceneManager.controls.target ∧
    (handleGestureData sqrt f w data).world.sceneManager.currentGroup.rotation
      = w.sceneManager.currentGroup.rotation ∧
    (handleGestureData sqrt f w data).world.handler.lastX = none ∧
    (handleGestureData sqrt f w data).world.handler.lastY = none ∧
    (handleGestureData sqrt f w data).world.handler.lastPinchDist = none := by
  simp [handleGestureData, h, Outcome.world, Outcome.isReturned, GestureHandler.lastX,
    GestureHandler.lastY]

theorem tracking_lost_clears_history_witness :
    (lostSample (1 / 2) 0).is_tracking = false ∧
    (handleGestureData sqrtExact emptySpace
        (handleGestureData sqrtExact emptySpace solarWorld (tracked "GRAB" 0 0 none)).world
        (lostSample (1 / 2) 0)).world.handler.lastX = none :=
  ⟨rfl, (tracking_lost_clears_history sqrtExact emptySpace _ (lostSample (1 / 2) 0) rfl).2.2.2.2.1⟩

/-- C1: from a state whose `lastX`/`lastY` are undefined, the first tracked GRAB
sample leaves the scene manager (rotation, camera, orbit target) as it was and
latches its pointer; the second one, when its delta exceeds `0.0001` on some
axis, adds `deltaX * 2.5` to `rotation.y` and `deltaY * 2.5` to `rotation.x`,
latches its own pointer and leaves camera position and orbit target alone. -/
theorem grab_first_latches_second_rotates (sqrt : K → K) (f1 f2 : Frame K) (w : World K)
    (s1 s2 : Sample K) (hw : w.handler.lastX = none ∧ w.handler.lastY = none)
    (h1t : s1.is_tracking = true) (h1g : s1.gesture = "GRAB")
    (h2t : s2.is_tracking = true) (h2g : s2.gesture = "GRAB") :
    (handleGestureData sqrt f1 w s1).world.sceneManager = w.sceneManager ∧
    (handleGestureData sqrt f1 w s1).world.handler.lastX = some s1.x ∧
    (handleGestureData sqrt f1 w s1).world.handler.lastY = some s1.y ∧
    (|s2.x - s1.x| > 0.0001 ∨ |s2.y - s1.y| > 0.0001 →
      (handleGestureData sqrt f2 (handleGestureData sqrt f1 w s1).world
          s2).world.sceneManager.currentGroup.rotation.y
        = w.sceneManager.currentGroup.rotation.y + (s2.x - s1.x) * 2.5 ∧
      (handleGestureData sqrt f2 (handleGestureData sqrt f1 w s1).world
          s2).world.sceneManager.currentGroup.rotation.x
        = w.sceneManager.currentGroup.rotation.x + (s2.y - s1.y) * 2.5 ∧
      (handleGestureData sqrt f2 (handleGestureData sqrt f1 w s1).world
          s2).world.handler.lastX = some s2.x ∧
      (handleGestureData sqrt f2 (handleGestureData sqrt f1 w s1).world
          s2).world.handler.lastY = some s2.y ∧
      (handleGestureData sqrt f2 (handleGestureData sqrt f1 w s1).world
          s2).world.sceneManager.camera.position = w.sceneManager.camera.position ∧
      (handleGestureData sqrt f2 (handleGestureData sqrt f1 w s1).world
          s2).world.sceneManager.controls.target = w.sceneManager.controls.target) := by
  have hl : w.handler.last = none := (lastX_eq_none_iff w.handler).1 hw.1
  have e1 : (handleGestureData sqrt f1 w s1).world =
      { w with
        cursor := w.cursor.map (updateCursor f1 s1)
        debug := .rotating
        handler := { w.handler with lastPinchDist := none, last := some (s1.x, s1.y) } } := by
    simp [handleGestureData, handleGrab, h1t, h1g, hl, Outcome.world]
  rw [e1]
  refine ⟨rfl, rfl, rfl, ?_⟩
  intro hd
  simp [handleGestureData, handleGrab, h2t, h2g, Outcome.world, hd, GestureHandler.lastX,
    GestureHandler.lastY]

theorem grab_first_latches_second_rotates_witness :
    (solarWorld.handler.lastX = none ∧ solarWorld.handler.lastY = none) ∧
    (tracked "GRAB" 0 0 none).is_tracking = true ∧
    (tracked "GRAB" 0 0 none).gesture = "GRAB" ∧
    (tracked "GRAB" (1 / 2) (1 / 4) none).is_tracking = true ∧
    (tracked "GRAB" (1 / 2) (1 / 4) none).gesture = "GRAB" ∧
    (|(tracked "GRAB" (1 / 2) (1 / 4) none).x - (tracked "GRAB" 0 0 none).x| > 0.0001 ∨
      |(tracked "GRAB" (1 / 2) (1 / 4) none).y - (tracked "GRAB" 0 0 none).y| > 0.0001) ∧
    (handleGestureData sqrtExact emptySpace
        (handleGestureData sqrtExact emptySpace solarWorld (tracked "GRAB" 0 0 none)).world
        (tracked "GRAB" (1 / 2) (1 / 4) none)).world.sceneManager.currentGroup.rotation.y
      = 0 + (1 / 2 - 0) * 2.5 :=
  have hd : |(tracked "GRAB" (1 / 2) (1 / 4) none).x - (tracked "GRAB" 0 0 none).x| > 0.0001 ∨
      |(tracked "GRAB" (1 / 2) (1 / 4) none).y - (tracked "GRAB" 0 0 none).y| > 0.0001 :=
    Or.inl (by norm_num [tracked, abs_of_pos])
  ⟨⟨rfl, rfl⟩, rfl, rfl, rfl, rfl, hd,
    ((grab_first_latches_second_rotates sqrtExact emptySpace emptySpace solarWorld
      (tracked "GRAB" 0 0 none) (tracked "GRAB" (1 / 2) (1 / 4) none) ⟨rfl, rfl⟩ rfl rfl rfl
      rfl).2.2.2 hd).1⟩

/-- A POINT sample whose ray hits nothing never moves the rig: line 160 has
just cleared `lastX`, so the test of line 210 always takes the latching side
and lines 214-228 are not reached. -/
theorem handlePoint_empty_keeps_rig (sqrt : K → K) (f : Frame K) (w : World K)
    (data : Sample K) (h : f.intersectObjects data.x (-data.y) = []) :
    (handlePoint sqrt f w data).world.sceneManager = w.sceneManager := by
  unfold handlePoint handlePan
  simp only [h]
  cases hh : w.handler.hoveredPlanet with
  | none => simp [Outcome.world]
  | some old =>
    cases he : setHex w.emissive old 0x000000 with
    | none => simp [Outcome.world, he]
    | some e1 => simp [Outcome.world, he]

/-- C2: evaluated on the initial world.  A POINT sample over empty space at
`(0, 0)` latches that pointer (line 211), and the GRAB sample at `(1/2, 0)` that
follows takes its delta from it and turns the scene by `1.25`.  Likewise a
NEUTRAL sample without `pinch_dist` between two GRAB samples clears nothing, and
the second GRAB sample turns the scene by the whole stale delta. -/
theorem grab_after_other_mode_uses_stale_pointer :
    (handleAll sqrtExact solarWorld
        [(emptySpace, tracked "POINT" 0 0 none)]).handler.lastX = some 0 ∧
    (handleAll sqrtExact solarWorld
        [(emptySpace, tracked "POINT" 0 0 none)]).sceneManager.currentGroup.rotation.y = 0 ∧
    (handleAll sqrtExact solarWorld
        [(emptySpace, tracked "POINT" 0 0 none),
         (emptySpace, tracked "GRAB" (1 / 2) 0 none)]).sceneManager.currentGroup.rotation.y
      = 5 / 4 ∧
    (handleAll sqrtExact solarWorld
        [(emptySpace, tracked "GRAB" 0 0 none),
         (emptySpace, tracked "NEUTRAL" (1 / 4) 0 none)]).handler.lastX = some 0 ∧
    (handleAll sqrtExact solarWorld
        [(emptySpace, tracked "GRAB" 0 0 none),
         (emptySpace, tracked "NEUTRAL" (1 / 4) 0 none),
         (emptySpace, tracked "GRAB" (1 / 2) 0 none)]).sceneManager.currentGroup.rotation.y
      = 5 / 4 := by
  simp [handleAll, handleGestureData, handlePoint, handlePan, handleGrab, handleThrottle,
    solarWorld, worldAt, emptySpace, tracked, GestureHandler.init, Outcome.world,
    GestureHandler.lastX]
  norm_num [abs_of_pos]

/-- C3: evaluated on the initial world.  Two POINT samples over empty space with
pointer delta `(0.1, 0)` leave camera position and orbit target where they
were; the pan by `-0.1 * 50` along `right` does not take place. -/
theorem point_over_empty_space_does_not_pan :
    (handleAll sqrtExact solarWorld
        [(emptySpace, tracked "POINT" 0 0 none),
         (emptySpace, tracked "POINT" (1 / 10) 0 none)]).sceneManager.camera.position
      = solarWorld.sceneManager.camera.position ∧
    (handleAll sqrtExact solarWorld
        [(emptySpace, tracked "POINT" 0 0 none),
         (emptySpace, tracked "POINT" (1 / 10) 0 none)]).sceneManager.controls.target
      = solarWorld.sceneManager.controls.target ∧
    (handleAll sqrtExact solarWorld
        [(emptySpace, tracked "POINT" 0 0 none),
         (emptySpace, tracked "POINT" (1 / 10) 0 none)]).sceneManager.camera.position
      ≠ (solarWorld.sceneManager.camera.position.addScaledVector emptySpace.right
          (-(1 / 10 - 0) * 50)).addScaledVector emptySpace.up ((0 - 0) * 50) := by
  simp [handleAll, handleGestureData, handlePoint, handlePan, solarWorld, worldAt, emptySpace,
    tracked, GestureHandler.init, Outcome.world, Vector3.addScaledVector]

/-! ### Throttle zoom: what one sample does to the rig -/

/-- A tracked sample that is neither GRAB nor POINT and carries a pinch distance
whose throttle is outside the dead band moves the camera by `moveSpeed` along
`dir` and returns. -/
theorem handleGestureData_throttle_moves (sqrt : K → K) (f : Frame K) (w : World K)
    (data : Sample K) (p : K) (ht : data.is_tracking = true) (hg : data.gesture ≠ "GRAB")
    (hq : data.gesture ≠ "POINT") (hp : data.pinch_dist = some p)
    (hthr : |throttle p| > 0.005) :
    (handleGestureData sqrt f w data).world.sceneManager.camera.position
      = w.sceneManager.camera.position.addScaledVector f.dir
          (moveSpeed (throttle p) (distToTarget sqrt w)) ∧
    (handleGestureData sqrt f w data).world.sceneManager.controls
      = w.sceneManager.controls ∧
    (handleGestureData sqrt f w data).world.sceneManager.currentGroup
      = w.sceneManager.currentGroup ∧
    (handleGestureData sqrt f w data).isReturned = true := by
  simp [handleGestureData, handleThrottle, ht, hg, hq, hp, hthr, Outcome.world,
    Outcome.isReturned, distToTarget]

/-- The same sample with a throttle inside the dead band leaves the scene manager
as it was. -/
theorem handleGestureData_throttle_idle (sqrt : K → K) (f : Frame K) (w : World K)
    (data : Sample K) (p : K) (ht : data.is_tracking = true) (hg : data.gesture ≠ "GRAB")
    (hq : data.gesture ≠ "POINT") (hp : data.pinch_dist = some p)
    (hthr : ¬ |throttle p| > 0.005) :
    (handleGestureData sqrt f w data).world.sceneManager = w.sceneManager ∧
    (handleGestureData sqrt f w data).isReturned = true := by
  simp [handleGestureData, handleThrottle, ht, hg, hq, hp, hthr, Outcome.world,
    Outcome.isReturned]

/-! ### Throttle zoom: bounds on `moveSpeed` -/

theorem maxSpeed_eq : (maxSpeed : K) = 20 := by
  unfold maxSpeed
  norm_num

theorem minDistance_eq : (minDistance : K) = 5 := by
  unfold minDistance
  norm_num

theorem moveSpeedClamped_le (t d : K) : moveSpeedClamped t d ≤ 20 := by
  unfold moveSpeedClamped
  rw [maxSpeed_eq]
  exact max_le (by norm_num) (min_le_left _ _)

theorem neg_le_moveSpeedClamped (t d : K) : -20 ≤ moveSpeedClamped t d := by
  unfold moveSpeedClamped
  rw [maxSpeed_eq]
  exact le_max_left _ _

theorem moveSpeedBase_zoom_in (t d : K) (ht : 0 ≤ t) :
    moveSpeedBase t d = t * (min d 500 * 0.08) := by
  unfold moveSpeedBase
  simp [not_lt.mpr ht]

theorem moveSpeedBase_nonneg (t d : K) (ht : 0 ≤ t) (hd : 0 ≤ d) : 0 ≤ moveSpeedBase t d := by
  rw [moveSpeedBase_zoom_in t d ht]
  have h500 : (0 : K) ≤ min d 500 := le_min hd (by norm_num)
  have h08 : (0 : K) ≤ 0.08 := by norm_num
  exact mul_nonneg ht (mul_nonneg h500 h08)

theorem moveSpeedClamped_nonneg (t d : K) (ht : 0 ≤ t) (hd : 0 ≤ d) :
    0 ≤ moveSpeedClamped t d := by
  unfold moveSpeedClamped
  rw [maxSpeed_eq]
  exact le_max_of_le_right (le_min (by norm_num) (moveSpeedBase_nonneg t d ht hd))

theorem moveSpeedGuarded_nonneg (t d : K) (ht : 0 ≤ t) (hd : 0 ≤ d) :
    0 ≤ moveSpeedGuarded t d := by
  have hc := moveSpeedClamped_nonneg t d ht hd
  unfold moveSpeedGuarded
  simp only []
  split_ifs
  · have h02 : (0 : K) ≤ 0.2 := by norm_num
    exact mul_nonneg hd h02
  · exact hc

theorem moveSpeedGuarded_le_clamped (t d : K) (hd : 0 ≤ d) :
    moveSpeedGuarded t d ≤ moveSpeedClamped t d := by
  unfold moveSpeedGuarded
  simp only []
  split_ifs with h
  · have h1 : d * 0.2 ≤ d * 0.8 := by
      apply mul_le_mul_of_nonneg_left _ hd
      norm_num
    exact le_trans h1 (le_of_lt h.2)
  · exact le_refl _

theorem moveSpeedGuarded_le_frac (t d : K) (hd : 0 ≤ d) :
    moveSpeedGuarded t d ≤ d * 0.8 := by
  unfold moveSpeedGuarded
  simp only []
  split_ifs with h
  · apply mul_le_mul_of_nonneg_left _ hd
    norm_num
  · rw [not_and_or, not_lt, not_lt] at h
    rcases h with h | h
    · have h08 : (0 : K) ≤ 0.8 := by norm_num
      exact le_trans h (mul_nonneg hd h08)
    · exact h

theorem neg_le_moveSpeedGuarded (t d : K) (hd : 0 ≤ d) : -20 ≤ moveSpeedGuarded t d := by
  unfold moveSpeedGuarded
  simp only []
  split_ifs
  · have h02 : (0 : K) ≤ 0.2 := by norm_num
    have := mul_nonneg hd h02
    linarith
  · exact neg_le_moveSpeedClamped t d

theorem moveSpeed_le_guarded (t d : K) : moveSpeed t d ≤ moveSpeedGuarded t d := by
  unfold moveSpeed
  rw [minDistance_eq]
  simp only []
  split_ifs with h
  · apply max_le (le_of_lt h.1)
    linarith [h.2]
  · exact le_refl _

theorem moveSpeed_nonneg (t d : K) (ht : 0 ≤ t) (hd : 0 ≤ d) : 0 ≤ moveSpeed t d := by
  unfold moveSpeed
  simp only []
  split_ifs
  · exact le_max_left _ _
  · exact moveSpeedGuarded_nonneg t d ht hd

theorem neg_le_moveSpeed (t d : K) (hd : 0 ≤ d) : -20 ≤ moveSpeed t d := by
  unfold moveSpeed
  simp only []
  split_ifs
  · exact le_trans (by norm_num) (le_max_left _ _)
  · exact neg_le_moveSpeedGuarded t d hd

/-- Once the floor test of line 276 fires, the move is `max 0 (d - 5)`; this is
also the move when the guarded speed is `0` and `d < 5`. -/
theorem moveSpeed_floor (t d : K) (ht : 0 ≤ t) (hd : 0 ≤ d)
    (h : d - moveSpeedGuarded t d < 5) : moveSpeed t d = max 0 (d - 5) := by
  have hg := moveSpeedGuarded_nonneg t d ht hd
  unfold moveSpeed
  rw [minDistance_eq]
  simp only []
  split_ifs with h1
  · rfl
  · rw [not_and_or, not_lt, not_lt] at h1
    rcases h1 with h1 | h1
    · have h0 : moveSpeedGuarded t d = 0 := le_antisymm h1 hg
      rw [h0] at h ⊢
      rw [max_eq_left]
      linarith
    · linarith

theorem moveSpeed_keeps_floor (t d : K) (ht : 0 ≤ t) (hd : 0 ≤ d) :
    min d 5 ≤ d - moveSpeed t d := by
  by_cases h : d - moveSpeedGuarded t d < 5
  · rw [moveSpeed_floor t d ht hd h]
    rcases le_total d 5 with h5 | h5
    · rw [max_eq_left (by linarith), min_eq_left h5]
      linarith
    · rw [max_eq_right (by linarith), min_eq_right h5]
      linarith
  · have h1 := moveSpeed_le_guarded t d
    have h2 : min d 5 ≤ 5 := min_le_right _ _
    linarith

/-! ### Concrete distances -/

theorem isqrt_one : isqrt 1 = 1 := by decide

theorem isqrt_36 : isqrt 36 = 6 := by decide

theorem isqrt_100 : isqrt 100 = 10 := by decide

theorem isqrt_10000 : isqrt 10000 = 100 := by decide

theorem distToTarget_at_6 : distToTarget sqrtExact (worldAt ⟨0, 0, 6⟩) = 6 := by
  norm_num [distToTarget, worldAt, Vector3.distanceTo, Vector3.distanceToSquared, sqrtExact,
    isqrt_36, isqrt_one]

theorem distToTarget_at_10 : distToTarget sqrtExact (worldAt ⟨0, 0, 10⟩) = 10 := by
  norm_num [distToTarget, worldAt, Vector3.distanceTo, Vector3.distanceToSquared, sqrtExact,
    isqrt_100, isqrt_one]

theorem distToTarget_at_100 : distToTarget sqrtExact (worldAt ⟨0, 0, 100⟩) = 100 := by
  norm_num [distToTarget, worldAt, Vector3.distanceTo, Vector3.distanceToSquared, sqrtExact,
    isqrt_10000, isqrt_one]

/-! ### Throttle zoom: the claims -/

/-- C5: for a zoom-in sample (`throttle > 0.005`) and a camera-to-target distance
`d ≥ 0`, the camera moves by `m = moveSpeed` along `dir` with `0 ≤ m` and
`min d 5 ≤ d - m`; so for `d ≥ 5` the distance left is at least `5`.  When the
move before the floor test would leave less than `5`, `m` is `max 0 (d - 5)`.
With `d = 6` and a computed speed of `10` the move is `1`. -/
theorem zoom_in_keeps_floor (sqrt : K → K) (f : Frame K) (w : World K) (data : Sample K)
    (p : K) (ht : data.is_tracking = true) (hg : data.gesture ≠ "GRAB")
    (hq : data.gesture ≠ "POINT") (hp : data.pinch_dist = some p)
    (hthr : throttle p > 0.005) (hd : 0 ≤ distToTarget sqrt w) :
    (handleGestureData sqrt f w data).world.sceneManager.camera.position
      = w.sceneManager.camera.position.addScaledVector f.dir
          (moveSpeed (throttle p) (distToTarget sqrt w)) ∧
    0 ≤ moveSpeed (throttle p) (distToTarget sqrt w) ∧
    min (distToTarget sqrt w) 5 ≤
      distToTarget sqrt w - moveSpeed (throttle p) (distToTarget sqrt w) ∧
    (5 ≤ distToTarget sqrt w →
      5 ≤ distToTarget sqrt w - moveSpeed (throttle p) (distToTarget sqrt w)) ∧
    (distToTarget sqrt w - moveSpeedGuarded (throttle p) (distToTarget sqrt w) < 5 →
      moveSpeed (throttle p) (distToTarget sqrt w) = max 0 (distToTarget sqrt w - 5)) ∧
    (distToTarget sqrt w = 6 → moveSpeedBase (throttle p) (distToTarget sqrt w) = 10 →
      moveSpeed (throttle p) (distToTarget sqrt w) = 1) := by
  have h005 : (0 : K) < 0.005 := by norm_num
  have ht0 : 0 ≤ throttle p := le_of_lt (lt_trans h005 hthr)
  have habs : |throttle p| > 0.005 := by rwa [abs_of_nonneg ht0]
  have hfloor := moveSpeed_keeps_floor (throttle p) (distToTarget sqrt w) ht0 hd
  refine ⟨(handleGestureData_throttle_moves sqrt f w data p ht hg hq hp habs).1,
    moveSpeed_nonneg _ _ ht0 hd, hfloor, ?_, moveSpeed_floor _ _ ht0 hd, ?_⟩
  · intro h5
    rwa [min_eq_right h5] at hfloor
  · intro h6 h10
    have hc : moveSpeedClamped (throttle p) (distToTarget sqrt w) = 10 := by
      unfold moveSpeedClamped
      rw [h10, maxSpeed_eq]
      norm_num
    have hgd : moveSpeedGuarded (throttle p) (distToTarget sqrt w) = 6 * 0.2 := by
      unfold moveSpeedGuarded
      rw [hc, h6]
      norm_num
    rw [moveSpeed_floor _ _ ht0 hd (by rw [hgd, h6]; norm_num), h6]
    norm_num

theorem zoom_in_keeps_floor_witness :
    throttle (3233 / 900 : ℚ) > 0.005 ∧
    0 ≤ distToTarget sqrtExact (worldAt ⟨0, 0, 6⟩) ∧
    moveSpeedBase (throttle (3233 / 900 : ℚ)) (distToTarget sqrtExact (worldAt ⟨0, 0, 6⟩)) = 10 ∧
    (handleGestureData sqrtExact emptySpace (worldAt ⟨0, 0, 6⟩)
        (tracked "NEUTRAL" 0 0 (some (3233 / 900)))).world.sceneManager.camera.position
      = ⟨0, 0, 5⟩ := by
  have hthr : throttle (3233 / 900 : ℚ) > 0.005 := by
    norm_num [throttle, upperThreshold, lowerThreshold]
  have hd : (0 : ℚ) ≤ distToTarget sqrtExact (worldAt ⟨0, 0, 6⟩) := by
    rw [distToTarget_at_6]
    norm_num
  have hb : moveSpeedBase (throttle (3233 / 900 : ℚ))
      (distToTarget sqrtExact (worldAt ⟨0, 0, 6⟩)) = 10 := by
    rw [distToTarget_at_6]
    norm_num [moveSpeedBase, throttle, upperThreshold, lowerThreshold]
  have h := zoom_in_keeps_floor sqrtExact emptySpace (worldAt ⟨0, 0, 6⟩)
    (tracked "NEUTRAL" 0 0 (some (3233 / 900))) (3233 / 900) rfl (by decide) (by decide) rfl
    hthr hd
  refine ⟨hthr, hd, hb, ?_⟩
  rw [h.1, h.2.2.2.2.2 distToTarget_at_6 hb]
  norm_num [Vector3.addScaledVector, worldAt, emptySpace]

/-- For a zoom-out throttle no later test changes the clamped speed: the move is
`max (-20) (min (throttle * distFactor) (throttle * 2))`. -/
theorem moveSpeed_zoom_out (t d : K) (ht : t < 0) :
    moveSpeed t d = max (-20) (min (t * (min d 500 * 0.08)) (t * 2.0)) ∧ moveSpeed t d < 0 := by
  have hb : moveSpeedBase t d = min (t * (min d 500 * 0.08)) (t * 2.0) := by
    unfold moveSpeedBase
    simp [ht]
  have h2 : t * 2.0 < 0 := by
    have : (0 : K) < 2.0 := by norm_num
    exact mul_neg_of_neg_of_pos ht this
  have hb0 : moveSpeedBase t d < 0 := by
    rw [hb]
    exact lt_of_le_of_lt (min_le_right _ _) h2
  have hc : moveSpeedClamped t d = max (-20) (moveSpeedBase t d) := by
    unfold moveSpeedClamped
    rw [maxSpeed_eq, min_eq_right]
    linarith
  have hc0 : moveSpeedClamped t d < 0 := by
    rw [hc]
    exact max_lt (by norm_num) hb0
  have hgd : moveSpeedGuarded t d = moveSpeedClamped t d := by
    unfold moveSpeedGuarded
    simp [not_lt.mpr (le_of_lt hc0)]
  have hm : moveSpeed t d = moveSpeedGuarded t d := by
    unfold moveSpeed
    simp [hgd, not_lt.mpr (le_of_lt hc0)]
  rw [hm, hgd]
  exact ⟨by rw [hc, hb], hc0⟩

/-- C6, as the code has it: for a zoom-out sample (`throttle < -0.005`) and any
distance, `throttle * 2` replaces the speed when it is the larger one in
magnitude (`Math.min` of two negative numbers).  The move applied is
`max (-20) (min (throttle * distFactor) (throttle * 2))`; its magnitude is at
least `min (|throttle| * 2) 20` and at most `20`. -/
theorem zoom_out_speed_at_least_twice_throttle (sqrt : K → K) (f : Frame K) (w : World K)
    (data : Sample K) (p : K) (ht : data.is_tracking = true) (hg : data.gesture ≠ "GRAB")
    (hq : data.gesture ≠ "POINT") (hp : data.pinch_dist = some p)
    (hthr : throttle p < -0.005) :
    (handleGestureData sqrt f w data).world.sceneManager.camera.position
      = w.sceneManager.camera.position.addScaledVector f.dir
          (moveSpeed (throttle p) (distToTarget sqrt w)) ∧
    moveSpeed (throttle p) (distToTarget sqrt w)
      = max (-20) (min (throttle p * (min (distToTarget sqrt w) 500 * 0.08))
          (throttle p * 2.0)) ∧
    min (|throttle p| * 2.0) 20 ≤ |moveSpeed (throttle p) (distToTarget sqrt w)| ∧
    |moveSpeed (throttle p) (distToTarget sqrt w)| ≤ 20 := by
  have h005 : (-0.005 : K) < 0 := by norm_num
  have ht0 : throttle p < 0 := lt_trans hthr h005
  have habs : |throttle p| > 0.005 := by
    rw [abs_of_neg ht0]
    linarith
  obtain ⟨hm, hm0⟩ := moveSpeed_zoom_out (throttle p) (distToTarget sqrt w) ht0
  refine ⟨(handleGestureData_throttle_moves sqrt f w data p ht hg hq hp habs).1, hm, ?_, ?_⟩
  · rw [abs_of_neg hm0, abs_of_neg ht0, hm]
    rcases le_total (-20 : K)
        (min (throttle p * (min (distToTarget sqrt w) 500 * 0.08)) (throttle p * 2.0)) with h | h
    · rw [max_eq_right h]
      have := min_le_right (throttle p * (min (distToTarget sqrt w) 500 * 0.08))
        (throttle p * 2.0)
      exact le_trans (min_le_left _ _) (by linarith)
    · rw [max_eq_left h]
      exact le_trans (min_le_right _ _) (by norm_num)
  · rw [abs_of_neg hm0, hm]
    have := le_max_left (-20 : K)
      (min (throttle p * (min (distToTarget sqrt w) 500 * 0.08)) (throttle p * 2.0))
    linarith

theorem zoom_out_speed_at_least_twice_throttle_witness :
    throttle (0 : ℚ) < -0.005 ∧
    (handleGestureData sqrtExact emptySpace (worldAt ⟨0, 0, 100⟩)
        (tracked "NEUTRAL" 0 0 (some 0))).world.sceneManager.camera.position
      = ⟨0, 0, 100 + 144 / 25⟩ := by
  have hthr : throttle (0 : ℚ) < -0.005 := by
    norm_num [throttle, upperThreshold, lowerThreshold]
  have h := zoom_out_speed_at_least_twice_throttle sqrtExact emptySpace (worldAt ⟨0, 0, 100⟩)
    (tracked "NEUTRAL" 0 0 (some 0)) 0 rfl (by decide) (by decide) rfl hthr
  refine ⟨hthr, ?_⟩
  rw [h.1, h.2.1, distToTarget_at_100]
  norm_num [Vector3.addScaledVector, worldAt, emptySpace, throttle, upperThreshold,
    lowerThreshold]

/-- C6, as stated, fails: with the hand closed (`pinch_dist = 0`, throttle
`-0.72`) at distance `100` the camera moves by `-5.76`, four times
`|throttle| * 2 = 1.44`. -/
theorem zoom_out_move_exceeds_twice_throttle :
    throttle (0 : ℚ) < -0.005 ∧
    0 ≤ distToTarget sqrtExact (worldAt ⟨0, 0, 100⟩) ∧
    (handleGestureData sqrtExact emptySpace (worldAt ⟨0, 0, 100⟩)
        (tracked "NEUTRAL" 0 0 (some 0))).world.sceneManager.camera.position
      = (worldAt ⟨0, 0, 100⟩).sceneManager.camera.position.addScaledVector emptySpace.dir
          (moveSpeed (throttle 0) (distToTarget sqrtExact (worldAt ⟨0, 0, 100⟩))) ∧
    moveSpeed (throttle (0 : ℚ)) (distToTarget sqrtExact (worldAt ⟨0, 0, 100⟩)) = -(144 / 25) ∧
    ¬ |moveSpeed (throttle (0 : ℚ)) (distToTarget sqrtExact (worldAt ⟨0, 0, 100⟩))|
        ≤ |throttle (0 : ℚ)| * 2.0 := by
  have ht : throttle (0 : ℚ) = -(18 / 25) := by
    norm_num [throttle, upperThreshold, lowerThreshold]
  have hm : moveSpeed (throttle (0 : ℚ)) (distToTarget sqrtExact (worldAt ⟨0, 0, 100⟩))
      = -(144 / 25) := by
    rw [distToTarget_at_100, ht]
    norm_num [moveSpeed, moveSpeedGuarded, moveSpeedClamped, moveSpeedBase, maxSpeed,
      minDistance]
  refine ⟨by rw [ht]; norm_num, by rw [distToTarget_at_100]; norm_num, ?_, hm, ?_⟩
  · have habs : |throttle (0 : ℚ)| > 0.005 := by
      rw [ht]
      norm_num [abs_of_pos]
    exact (handleGestureData_throttle_moves sqrtExact emptySpace (worldAt ⟨0, 0, 100⟩)
      (tracked "NEUTRAL" 0 0 (some 0)) 0 rfl (by decide) (by decide) rfl habs).1
  · rw [hm, ht]
    norm_num [abs_of_pos]

/-- C7: for a tracked sample that is neither GRAB nor POINT, with pinch distance
`p > 0.12`, throttle `(p - 0.12) * 6` above `0.005` and a distance `d ≥ 0` at
which no later clamp binds, the camera moves by exactly
`(p - 0.12) * 6 * min d 500 * 0.08` along `dir`; for `p = 0.20` and `d = 100`
this is `3.84`. -/
theorem zoom_in_unclamped_move (sqrt : K → K) (f : Frame K) (w : World K) (data : Sample K)
    (p : K) (ht : data.is_tracking = true) (hg : data.gesture ≠ "GRAB")
    (hq : data.gesture ≠ "POINT") (hp : data.pinch_dist = some p) (hup : p > 0.12)
    (hthr : (p - 0.12) * 6.0 > 0.005) (hd : 0 ≤ distToTarget sqrt w)
    (h20 : (p - 0.12) * 6.0 * min (distToTarget sqrt w) 500 * 0.08 ≤ 20)
    (h80 : (p - 0.12) * 6.0 * min (distToTarget sqrt w) 500 * 0.08 ≤ 0.8 * distToTarget sqrt w)
    (hfl : distToTarget sqrt w - (p - 0.12) * 6.0 * min (distToTarget sqrt w) 500 * 0.08 ≥ 5) :
    throttle p = (p - 0.12) * 6.0 ∧
    (handleGestureData sqrt f w data).world.sceneManager.camera.position
      = w.sceneManager.camera.position.addScaledVector f.dir
          ((p - 0.12) * 6.0 * min (distToTarget sqrt w) 500 * 0.08) ∧
    (p = 0.20 → distToTarget sqrt w = 100 →
      (p - 0.12) * 6.0 * min (distToTarget sqrt w) 500 * 0.08 = 3.84) := by
  have hthrottle : throttle p = (p - 0.12) * 6.0 := by
    unfold throttle upperThreshold
    simp [hup]
  have h005 : (0 : K) < 0.005 := by norm_num
  have ht0 : 0 ≤ throttle p := by
    rw [hthrottle]
    exact le_of_lt (lt_trans h005 hthr)
  have habs : |throttle p| > 0.005 := by
    rw [abs_of_nonneg ht0, hthrottle]
    exact hthr
  have hb : moveSpeedBase (throttle p) (distToTarget sqrt w)
      = (p - 0.12) * 6.0 * min (distToTarget sqrt w) 500 * 0.08 := by
    rw [moveSpeedBase_zoom_in _ _ ht0, hthrottle]
    ring
  have hb0 := moveSpeedBase_nonneg (throttle p) (distToTarget sqrt w) ht0 hd
  have hc : moveSpeedClamped (throttle p) (distToTarget sqrt w)
      = moveSpeedBase (throttle p) (distToTarget sqrt w) := by
    unfold moveSpeedClamped
    rw [maxSpeed_eq, min_eq_right (by rw [hb]; exact h20), max_eq_right (by linarith)]
  have hgd : moveSpeedGuarded (throttle p) (distToTarget sqrt w)
      = moveSpeedBase (throttle p) (distToTarget sqrt w) := by
    unfold moveSpeedGuarded
    rw [hc]
    have : ¬ moveSpeedBase (throttle p) (distToTarget sqrt w) > distToTarget sqrt w * 0.8 := by
      rw [hb]
      linarith
    simp [this]
  have hm : moveSpeed (throttle p) (distToTarget sqrt w)
      = moveSpeedBase (throttle p) (distToTarget sqrt w) := by
    unfold moveSpeed
    rw [hgd, minDistance_eq]
    have : ¬ distToTarget sqrt w - moveSpeedBase (throttle p) (distToTarget sqrt w) < 5 := by
      rw [hb]
      linarith
    simp [this]
  refine ⟨hthrottle, ?_, ?_⟩
  · rw [(handleGestureData_throttle_moves sqrt f w data p ht hg hq hp habs).1, hm, hb]
  · intro hp20 hd100
    rw [hp20, hd100]
    norm_num

theorem zoom_in_unclamped_move_witness :
    ((0.20 : ℚ) > 0.12 ∧ ((0.20 : ℚ) - 0.12) * 6.0 > 0.005 ∧
      0 ≤ distToTarget sqrtExact (worldAt ⟨0, 0, 100⟩)) ∧
    (handleGestureData sqrtExact emptySpace (worldAt ⟨0, 0, 100⟩)
        (tracked "NEUTRAL" 0 0 (some 0.20))).world.sceneManager.camera.position
      = ⟨0, 0, 100 - 3.84⟩ := by
  have hd := distToTarget_at_100
  have h := zoom_in_unclamped_move sqrtExact emptySpace (worldAt ⟨0, 0, 100⟩)
    (tracked "NEUTRAL" 0 0 (some 0.20)) 0.20 rfl (by decide) (by decide) rfl (by norm_num)
    (by norm_num) (by rw [hd]; norm_num) (by rw [hd]; norm_num) (by rw [hd]; norm_num)
    (by rw [hd]; norm_num)
  refine ⟨⟨by norm_num, by norm_num, by rw [hd]; norm_num⟩, ?_⟩
  rw [h.2.1, h.2.2 rfl hd]
  norm_num [Vector3.addScaledVector, worldAt, emptySpace]

/-- C8: a tracked sample that is neither GRAB nor POINT, with pinch distance `p`
and `0.06 ≤ p ≤ 0.12`, has throttle `0` and leaves camera position and orbit
target as they were, whatever the camera state. -/
theorem dead_zone_no_motion (sqrt : K → K) (f : Frame K) (w : World K) (data : Sample K)
    (p : K) (ht : data.is_tracking = true) (hg : data.gesture ≠ "GRAB")
    (hq : data.gesture ≠ "POINT") (hp : data.pinch_dist = some p) (hlo : 0.06 ≤ p)
    (hhi : p ≤ 0.12) :
    throttle p = 0 ∧
    (handleGestureData sqrt f w data).world.sceneManager.camera.position
      = w.sceneManager.camera.position ∧
    (handleGestureData sqrt f w data).world.sceneManager.controls.target
      = w.sceneManager.controls.target := by
  have h0 : throttle p = 0 := by
    unfold throttle upperThreshold lowerThreshold
    simp [not_lt.mpr hhi, not_lt.mpr hlo]
  have hidle : ¬ |throttle p| > 0.005 := by
    rw [h0]
    norm_num
  have h := (handleGestureData_throttle_idle sqrt f w data p ht hg hq hp hidle).1
  exact ⟨h0, by rw [h], by rw [h]⟩

theorem dead_zone_no_motion_witness :
    ((0.06 : ℚ) ≤ 0.06 ∧ (0.06 : ℚ) ≤ 0.12) ∧
    throttle (0.06 : ℚ) = 0 ∧
    (handleGestureData sqrtExact emptySpace solarWorld
        (tracked "NEUTRAL" 0 0 (some 0.06))).world.sceneManager.camera.position
      = ⟨0, 50, 100⟩ :=
  have h := dead_zone_no_motion sqrtExact emptySpace solarWorld
    (tracked "NEUTRAL" 0 0 (some 0.06)) 0.06 rfl (by decide) (by decide) rfl (by norm_num)
    (by norm_num)
  ⟨⟨by norm_num, by norm_num⟩, h.1, h.2.1⟩

/-- C9: for every pinch distance and every distance `d ≥ 0`, a tracked sample
that is neither GRAB nor POINT moves the camera along `dir` by `moveSpeed` when
the throttle is outside the dead band and not at all otherwise, and the speed
lies in `[-20, 20]` after the clamp of line 268, after the 80% test and after
the floor test. -/
theorem applied_move_within_max_speed (sqrt : K → K) (f : Frame K) (w : World K)
    (data : Sample K) (p : K) (ht : data.is_tracking = true) (hg : data.gesture ≠ "GRAB")
    (hq : data.gesture ≠ "POINT") (hp : data.pinch_dist = some p)
    (hd : 0 ≤ distToTarget sqrt w) :
    (|throttle p| > 0.005 →
      (handleGestureData sqrt f w data).world.sceneManager.camera.position
        = w.sceneManager.camera.position.addScaledVector f.dir
            (moveSpeed (throttle p) (distToTarget sqrt w))) ∧
    (¬ |throttle p| > 0.005 →
      (handleGestureData sqrt f w data).world.sceneManager.camera.position
        = w.sceneManager.camera.position) ∧
    (-20 ≤ moveSpeedClamped (throttle p) (distToTarget sqrt w) ∧
      moveSpeedClamped (throttle p) (distToTarget sqrt w) ≤ 20) ∧
    (-20 ≤ moveSpeedGuarded (throttle p) (distToTarget sqrt w) ∧
      moveSpeedGuarded (throttle p) (distToTarget sqrt w) ≤ 20) ∧
    (-20 ≤ moveSpeed (throttle p) (distToTarget sqrt w) ∧
      moveSpeed (throttle p) (distToTarget sqrt w) ≤ 20) := by
  have hc := moveSpeedClamped_le (throttle p) (distToTarget sqrt w)
  have hgc := moveSpeedGuarded_le_clamped (throttle p) (distToTarget sqrt w) hd
  have hmg := moveSpeed_le_guarded (throttle p) (distToTarget sqrt w)
  refine ⟨fun h => (handleGestureData_throttle_moves sqrt f w data p ht hg hq hp h).1,
    fun h => ?_, ⟨neg_le_moveSpeedClamped _ _, hc⟩,
    ⟨neg_le_moveSpeedGuarded _ _ hd, le_trans hgc hc⟩,
    ⟨neg_le_moveSpeed _ _ hd, le_trans hmg (le_trans hgc hc)⟩⟩
  rw [(handleGestureData_throttle_idle sqrt f w data p ht hg hq hp h).1]

theorem applied_move_within_max_speed_witness :
    0 ≤ distToTarget sqrtExact (worldAt ⟨0, 0, 100⟩) ∧
    |throttle (2 : ℚ)| > 0.005 ∧
    moveSpeedBase (throttle (2 : ℚ)) (distToTarget sqrtExact (worldAt ⟨0, 0, 100⟩)) = 2256 / 25 ∧
    moveSpeed (throttle (2 : ℚ)) (distToTarget sqrtExact (worldAt ⟨0, 0, 100⟩)) ≤ 20 ∧
    (handleGestureData sqrtExact emptySpace (worldAt ⟨0, 0, 100⟩)
        (tracked "NEUTRAL" 0 0 (some 2))).world.sceneManager.camera.position
      = ⟨0, 0, 80⟩ := by
  have hd : (0 : ℚ) ≤ distToTarget sqrtExact (worldAt ⟨0, 0, 100⟩) := by
    rw [distToTarget_at_100]
    norm_num
  have ht : throttle (2 : ℚ) = 282 / 25 := by
    norm_num [throttle, upperThreshold, lowerThreshold]
  have habs : |throttle (2 : ℚ)| > 0.005 := by
    rw [ht]
    norm_num [abs_of_pos]
  have h := applied_move_within_max_speed sqrtExact emptySpace (worldAt ⟨0, 0, 100⟩)
    (tracked "NEUTRAL" 0 0 (some 2)) 2 rfl (by decide) (by decide) rfl hd
  refine ⟨hd, habs, ?_, h.2.2.2.2.2, ?_⟩
  · rw [distToTarget_at_100, ht]
    norm_num [moveSpeedBase]
  · rw [h.1 habs, distToTarget_at_100, ht]
    norm_num [Vector3.addScaledVector, worldAt, emptySpace, moveSpeed, moveSpeedGuarded,
      moveSpeedClamped, moveSpeedBase, maxSpeed, minDistance]

/-- C10: for a zoom-in sample (`throttle > 0.005`) and a distance `d > 0`, the
camera moves along `dir` by a speed that is at most `d * 0.8`, hence below `d`;
whenever the clamped speed exceeds `d * 0.8` the 80% test replaces it by
`d * 0.2`, and the floor test of line 276 is applied to that value. -/
theorem zoom_in_never_overshoots (sqrt : K → K) (f : Frame K) (w : World K)
    (data : Sample K) (p : K) (ht : data.is_tracking = true) (hg : data.gesture ≠ "GRAB")
    (hq : data.gesture ≠ "POINT") (hp : data.pinch_dist = some p)
    (hthr : throttle p > 0.005) (hd : 0 < distToTarget sqrt w) :
    (handleGestureData sqrt f w data).world.sceneManager.camera.position
      = w.sceneManager.camera.position.addScaledVector f.dir
          (moveSpeed (throttle p) (distToTarget sqrt w)) ∧
    moveSpeed (throttle p) (distToTarget sqrt w) ≤ distToTarget sqrt w * 0.8 ∧
    moveSpeed (throttle p) (distToTarget sqrt w) < distToTarget sqrt w ∧
    (moveSpeedClamped (throttle p) (distToTarget sqrt w) > distToTarget sqrt w * 0.8 →
      moveSpeedGuarded (throttle p) (distToTarget sqrt w) = distToTarget sqrt w * 0.2) ∧
    moveSpeed (throttle p) (distToTarget sqrt w)
      = (if moveSpeedGuarded (throttle p) (distToTarget sqrt w) > 0 ∧
            distToTarget sqrt w - moveSpeedGuarded (throttle p) (distToTarget sqrt w) < 5 then
          max 0 (distToTarget sqrt w - 5)
        else moveSpeedGuarded (throttle p) (distToTarget sqrt w)) := by
  have h005 : (0 : K) < 0.005 := by norm_num
  have ht0 : 0 ≤ throttle p := le_of_lt (lt_trans h005 hthr)
  have habs : |throttle p| > 0.005 := by rwa [abs_of_nonneg ht0]
  have hfrac := moveSpeedGuarded_le_frac (throttle p) (distToTarget sqrt w) (le_of_lt hd)
  have hmg := moveSpeed_le_guarded (throttle p) (distToTarget sqrt w)
  have h08 : distToTarget sqrt w * 0.8 < distToTarget sqrt w := by
    have : distToTarget sqrt w * 0.8 < distToTarget sqrt w * 1 :=
      mul_lt_mul_of_pos_left (by norm_num) hd
    rwa [mul_one] at this
  have h080 : 0 < distToTarget sqrt w * 0.8 := mul_pos hd (by norm_num)
  refine ⟨(handleGestureData_throttle_moves sqrt f w data p ht hg hq hp habs).1,
    le_trans hmg hfrac, lt_of_le_of_lt (le_trans hmg hfrac) h08, ?_, ?_⟩
  · intro hc
    unfold moveSpeedGuarded
    simp [hc, lt_trans h080 hc]
  · unfold moveSpeed
    rw [minDistance_eq]

theorem zoom_in_never_overshoots_witness :
    throttle (2 : ℚ) > 0.005 ∧
    0 < distToTarget sqrtExact (worldAt ⟨0, 0, 10⟩) ∧
    moveSpeedClamped (throttle (2 : ℚ)) (distToTarget sqrtExact (worldAt ⟨0, 0, 10⟩))
      > distToTarget sqrtExact (worldAt ⟨0, 0, 10⟩) * 0.8 ∧
    (handleGestureData sqrtExact emptySpace (worldAt ⟨0, 0, 10⟩)
        (tracked "NEUTRAL" 0 0 (some 2))).world.sceneManager.camera.position
      = ⟨0, 0, 8⟩ := by
  have hd : (0 : ℚ) < distToTarget sqrtExact (worldAt ⟨0, 0, 10⟩) := by
    rw [distToTarget_at_10]
    norm_num
  have ht : throttle (2 : ℚ) = 282 / 25 := by
    norm_num [throttle, upperThreshold, lowerThreshold]
  have hthr : throttle (2 : ℚ) > 0.005 := by
    rw [ht]
    norm_num
  have hc : moveSpeedClamped (throttle (2 : ℚ)) (distToTarget sqrtExact (worldAt ⟨0, 0, 10⟩))
      > distToTarget sqrtExact (worldAt ⟨0, 0, 10⟩) * 0.8 := by
    rw [distToTarget_at_10, ht]
    norm_num [moveSpeedClamped, moveSpeedBase, maxSpeed]
  have h := zoom_in_never_overshoots sqrtExact emptySpace (worldAt ⟨0, 0, 10⟩)
    (tracked "NEUTRAL" 0 0 (some 2)) 2 rfl (by decide) (by decide) rfl hthr hd
  refine ⟨hthr, hd, hc, ?_⟩
  rw [h.1, h.2.2.2.2, h.2.2.2.1 hc, distToTarget_at_10]
  norm_num [Vector3.addScaledVector, worldAt, emptySpace]

/-! ### Throttle zoom: the orbit target -/

theorem addScaledVector_zero (a v : Vector3 K) : a.addScaledVector v 0 = a := by
  cases a
  simp [Vector3.addScaledVector]

/-- C11: a tracked sample handled by the throttle branch (gesture neither GRAB
nor POINT, pinch distance present) returns with orbit target and scene rotation
as they were; the camera position is the old one moved along `dir`, by
`moveSpeed` when the throttle is outside the dead band and by `0` otherwise. -/
theorem throttle_zoom_keeps_target (sqrt : K → K) (f : Frame K) (w : World K)
    (data : Sample K) (p : K) (ht : data.is_tracking = true) (hg : data.gesture ≠ "GRAB")
    (hq : data.gesture ≠ "POINT") (hp : data.pinch_dist = some p) :
    (handleGestureData sqrt f w data).isReturned = true ∧
    (handleGestureData sqrt f w data).world.sceneManager.controls.target
      = w.sceneManager.controls.target ∧
    (handleGestureData sqrt f w data).world.sceneManager.currentGroup.rotation
      = w.sceneManager.currentGroup.rotation ∧
    (handleGestureData sqrt f w data).world.sceneManager.camera.position
      = w.sceneManager.camera.position.addScaledVector f.dir
          (if |throttle p| > 0.005 then moveSpeed (throttle p) (distToTarget sqrt w) else 0) := by
  by_cases h : |throttle p| > 0.005
  · obtain ⟨h1, h2, h3, h4⟩ := handleGestureData_throttle_moves sqrt f w data p ht hg hq hp h
    rw [if_pos h]
    exact ⟨h4, by rw [h2], by rw [h3], h1⟩
  · obtain ⟨h1, h2⟩ := handleGestureData_throttle_idle sqrt f w data p ht hg hq hp h
    rw [if_neg h, addScaledVector_zero]
    exact ⟨h2, by rw [h1], by rw [h1], by rw [h1]⟩

theorem throttle_zoom_keeps_target_witness :
    (handleGestureData sqrtExact emptySpace (worldAt ⟨0, 0, 100⟩)
        (tracked "NEUTRAL" 0 0 (some 0.20))).world.sceneManager.controls.target
      = ⟨0, 0, 0⟩ ∧
    (handleGestureData sqrtExact emptySpace (worldAt ⟨0, 0, 100⟩)
        (tracked "NEUTRAL" 0 0 (some 0.20))).world.sceneManager.camera.position
      = ⟨0, 0, 100 - 3.84⟩ := by
  have h := throttle_zoom_keeps_target sqrtExact emptySpace (worldAt ⟨0, 0, 100⟩)
    (tracked "NEUTRAL" 0 0 (some 0.20)) 0.20 rfl (by decide) (by decide) rfl
  refine ⟨h.2.1, ?_⟩
  rw [h.2.2.2, distToTarget_at_100]
  norm_num [Vector3.addScaledVector, worldAt, emptySpace, throttle, upperThreshold,
    lowerThreshold, moveSpeed, moveSpeedGuarded, moveSpeedClamped, moveSpeedBase, maxSpeed,
    minDistance, abs_of_pos]

/-! ### Gestures other than GRAB and POINT -/

/-- C17: a tracked sample that is neither GRAB nor POINT and carries no pinch
distance returns (no exception) and leaves the scene manager, hence camera
position, orbit target and scene rotation, as it was. -/
theorem neutral_without_pinch_no_motion (sqrt : K → K) (f : Frame K) (w : World K)
    (data : Sample K) (ht : data.is_tracking = true) (hg : data.gesture ≠ "GRAB")
    (hq : data.gesture ≠ "POINT") (hp : data.pinch_dist = none) :
    (handleGestureData sqrt f w data).isReturned = true ∧
    (handleGestureData sqrt f w data).world.sceneManager.camera.position
      = w.sceneManager.camera.position ∧
    (handleGestureData sqrt f w data).world.sceneManager.controls.target
      = w.sceneManager.controls.target ∧
    (handleGestureData sqrt f w data).world.sceneManager.currentGroup.rotation
      = w.sceneManager.currentGroup.rotation := by
  simp [handleGestureData, handleThrottle, ht, hg, hq, hp, Outcome.world, Outcome.isReturned]

theorem neutral_without_pinch_no_motion_witness :
    (handleGestureData sqrtExact emptySpace solarWorld
        (tracked "NEUTRAL" (1 / 2) (1 / 2) none)).isReturned = true ∧
    (handleGestureData sqrtExact emptySpace solarWorld
        (tracked "NEUTRAL" (1 / 2) (1 / 2) none)).world.sceneManager.camera.position
      = ⟨0, 50, 100⟩ :=
  have h := neutral_without_pinch_no_motion sqrtExact emptySpace solarWorld
    (tracked "NEUTRAL" (1 / 2) (1 / 2) none) rfl (by decide) (by decide) rfl
  ⟨h.1, h.2.1⟩

/-- C16, as the code has it: the last branch tests no gesture name, so a tracked
sample whose gesture is neither GRAB nor POINT is handled as the same sample
with gesture NEUTRAL.  It returns without an exception, orbit target and scene
rotation stay as they were, and the camera stays where it was when the pinch
distance is absent; a pinch distance that is present drives the throttle zoom. -/
theorem unknown_gesture_handled_as_neutral (sqrt : K → K) (f : Frame K) (w : World K)
    (data : Sample K) (ht : data.is_tracking = true) (hg : data.gesture ≠ "GRAB")
    (hq : data.gesture ≠ "POINT") :
    (handleGestureData sqrt f w data).isReturned = true ∧
    (handleGestureData sqrt f w data).world.sceneManager
      = (handleGestureData sqrt f w { data with gesture := "NEUTRAL" }).world.sceneManager ∧
    (handleGestureData sqrt f w data).world.handler
      = (handleGestureData sqrt f w { data with gesture := "NEUTRAL" }).world.handler ∧
    (handleGestureData sqrt f w data).world.sceneManager.controls.target
      = w.sceneManager.controls.target ∧
    (handleGestureData sqrt f w data).world.sceneManager.currentGroup.rotation
      = w.sceneManager.currentGroup.rotation ∧
    (data.pinch_dist = none →
      (handleGestureData sqrt f w data).world.sceneManager.camera.position
        = w.sceneManager.camera.position) := by
  cases hp : data.pinch_dist with
  | none =>
    simp [handleGestureData, handleThrottle, ht, hg, hq, hp, Outcome.world, Outcome.isReturned]
  | some p =>
    by_cases h : |throttle p| > 0.005
    · simp [handleGestureData, handleThrottle, ht, hg, hq, hp, h, Outcome.world,
        Outcome.isReturned, distToTarget]
    · simp [handleGestureData, handleThrottle, ht, hg, hq, hp, h, Outcome.world,
        Outcome.isReturned]

theorem unknown_gesture_handled_as_neutral_witness :
    (handleGestureData sqrtExact emptySpace (worldAt ⟨0, 0, 100⟩)
        (tracked "WAVE" 0 0 (some 0.20))).isReturned = true ∧
    (handleGestureData sqrtExact emptySpace (worldAt ⟨0, 0, 100⟩)
        (tracked "WAVE" 0 0 (some 0.20))).world.sceneManager
      = (handleGestureData sqrtExact emptySpace (worldAt ⟨0, 0, 100⟩)
          (tracked "NEUTRAL" 0 0 (some 0.20))).world.sceneManager :=
  have h := unknown_gesture_handled_as_neutral sqrtExact emptySpace (worldAt ⟨0, 0, 100⟩)
    (tracked "WAVE" 0 0 (some 0.20)) rfl (by decide) (by decide)
  ⟨h.1, h.2.1⟩

/-- C16, as stated, fails: the unknown gesture `WAVE` with pinch distance `0.20`
at distance `100` moves the camera by `3.84` along `dir`. -/
theorem unknown_gesture_with_pinch_moves_camera :
    (tracked "WAVE" 0 0 (some 0.20)).gesture ≠ "GRAB" ∧
    (tracked "WAVE" 0 0 (some 0.20)).gesture ≠ "POINT" ∧
    (tracked "WAVE" 0 0 (some 0.20)).gesture ≠ "NEUTRAL" ∧
    (handleGestureData sqrtExact emptySpace (worldAt ⟨0, 0, 100⟩)
        (tracked "WAVE" 0 0 (some 0.20))).world.sceneManager.camera.position
      = ⟨0, 0, 100 - 3.84⟩ ∧
    (handleGestureData sqrtExact emptySpace (worldAt ⟨0, 0, 100⟩)
        (tracked "WAVE" 0 0 (some 0.20))).world.sceneManager.camera.position
      ≠ (worldAt ⟨0, 0, 100⟩).sceneManager.camera.position := by
  have habs : |throttle ((0.20 : ℚ))| > 0.005 := by
    norm_num [throttle, upperThreshold, lowerThreshold, abs_of_pos]
  have h := (handleGestureData_throttle_moves sqrtExact emptySpace (worldAt ⟨0, 0, 100⟩)
    (tracked "WAVE" 0 0 (some 0.20)) 0.20 rfl (by decide) (by decide) rfl habs).1
  have hpos : (handleGestureData sqrtExact emptySpace (worldAt ⟨0, 0, 100⟩)
      (tracked "WAVE" 0 0 (some 0.20))).world.sceneManager.camera.position
      = ⟨0, 0, 100 - 3.84⟩ := by
    rw [h, distToTarget_at_100]
    norm_num [Vector3.addScaledVector, worldAt, emptySpace, throttle, upperThreshold,
      lowerThreshold, moveSpeed, moveSpeedGuarded, moveSpeedClamped, moveSpeedBase, maxSpeed,
      minDistance]
  refine ⟨by decide, by decide, by decide, hpos, ?_⟩
  rw [hpos]
  norm_num [worldAt]

/-! ### Tracking lost, repeated -/

/-- Handling a tracking-lost sample a second time changes nothing more. -/
theorem tracking_lost_twice (sqrt : K → K) (f g : Frame K) (w : World K) (data : Sample K)
    (h : data.is_tracking = false) :
    (handleGestureData sqrt g (handleGestureData sqrt f w data).world data).world
      = (handleGestureData sqrt f w data).world := by
  cases hc : w.cursor <;> simp [handleGestureData, h, Outcome.world, hc]

/-- C18: handling the same `is_tracking = false` sample one or more times, in
whatever frames, leaves the world (handler state, camera, everything else) as
one handling leaves it, and the scene manager is the initial one after any
number of repetitions. -/
theorem tracking_lost_idempotent (sqrt : K → K) (w : World K) (data : Sample K)
    (h : data.is_tracking = false) (f : Frame K) (fs : List (Frame K)) :
    handleAll sqrt w ((f :: fs).map fun g => (g, data))
      = (handleGestureData sqrt f w data).world ∧
    (handleAll sqrt w ((f :: fs).map fun g => (g, data))).sceneManager = w.sceneManager ∧
    (handleAll sqrt w (fs.map fun g => (g, data))).sceneManager = w.sceneManager := by
  have key : ∀ (gs : List (Frame K)) (g : Frame K) (v : World K),
      handleAll sqrt v ((g :: gs).map fun g => (g, data))
        = (handleGestureData sqrt g v data).world := by
    intro gs
    induction gs with
    | nil => intro g v; rfl
    | cons g2 gs ih =>
      intro g v
      have e : handleAll sqrt v ((g :: g2 :: gs).map fun g => (g, data))
          = handleAll sqrt (handleGestureData sqrt g v data).world
              ((g2 :: gs).map fun g => (g, data)) := rfl
      rw [e, ih g2, tracking_lost_twice sqrt g g2 v data h]
  have hs : ∀ (g : Frame K) (v : World K),
      (handleGestureData sqrt g v data).world.sceneManager = v.sceneManager := by
    intro g v
    simp [handleGestureData, h, Outcome.world]
  refine ⟨key fs f w, by rw [key fs f w, hs], ?_⟩
  cases fs with
  | nil => rfl
  | cons g gs => rw [key gs g w, hs]

theorem tracking_lost_idempotent_witness :
    (lostSample 0 0).is_tracking = false ∧
    handleAll sqrtExact (hovering 1 12 solarWorld)
        ([emptySpace, frameHitting 1 "Earth" ⟨30, 0, 0⟩, emptySpace].map
          fun g => (g, lostSample 0 0))
      = (handleGestureData sqrtExact emptySpace (hovering 1 12 solarWorld)
          (lostSample 0 0)).world :=
  ⟨rfl, (tracking_lost_idempotent sqrtExact (hovering 1 12 solarWorld) (lostSample 0 0) rfl
    emptySpace [frameHitting 1 "Earth" ⟨30, 0, 0⟩, emptySpace]).1⟩

/-! ### The cursor -/

theorem handleGrab_cursor (w : World K) (data : Sample K) :
    (handleGrab w data).world.cursor = w.cursor := by
  unfold handleGrab
  cases hl : w.handler.last with
  | none => simp [Outcome.world, hl]
  | some xy =>
    simp only [hl]
    split_ifs <;> rfl

theorem handleHover_cursor (sqrt : K → K) (w : World K) (hit : Intersection K) :
    (handleHover sqrt w hit).world.cursor = w.cursor := by
  unfold handleHover
  simp only []
  split
  · rfl
  · split
    · rfl
    · split_ifs <;> rfl

theorem handlePan_cursor (f : Frame K) (w : World K) (data : Sample K) :
    (handlePan f w data).world.cursor = w.cursor := by
  unfold handlePan
  cases hh : w.handler.hoveredPlanet with
  | none =>
    cases hl : w.handler.last <;> simp [Outcome.world, hl]
  | some old =>
    cases he : setHex w.emissive old 0x000000 with
    | none => simp [Outcome.world, he]
    | some e1 => cases hl : w.handler.last <;> simp [Outcome.world, he, hl]

theorem handlePoint_cursor (sqrt : K → K) (f : Frame K) (w : World K) (data : Sample K) :
    (handlePoint sqrt f w data).world.cursor = w.cursor := by
  unfold handlePoint
  simp only []
  split
  · rw [handleHover_cursor]
  · rw [handlePan_cursor]

theorem handleThrottle_cursor (sqrt : K → K) (f : Frame K) (w : World K) (data : Sample K) :
    (handleThrottle sqrt f w data).world.cursor = w.cursor := by
  unfold handleThrottle
  cases hp : data.pinch_dist with
  | none => rfl
  | some p =>
    simp only []
    split_ifs <;> rfl

/-- For a tracked sample the cursor element, if the page has one, is restyled by
`updateCursor`, whatever branch handles the sample and however it ends. -/
theorem handleGestureData_cursor (sqrt : K → K) (f : Frame K) (w : World K)
    (data : Sample K) (ht : data.is_tracking = true) :
    (handleGestureData sqrt f w data).world.cursor = w.cursor.map (updateCursor f data) := by
  unfold handleGestureData
  simp only [ht, Bool.not_true, Bool.false_eq_true, if_false]
  split_ifs
  · rw [handleGrab_cursor]
  · rw [handlePoint_cursor]
  · rw [handleThrottle_cursor]

theorem updateCursor_left_top (f : Frame K) (data : Sample K) (c : Cursor K) :
    (updateCursor f data c).left = screenX f data ∧
    (updateCursor f data c).top = screenY f data := by
  unfold updateCursor
  simp only []
  split_ifs <;> exact ⟨rfl, rfl⟩

theorem screenX_eq (f : Frame K) (data : Sample K) :
    screenX f data = (data.x + 1) / 2 * f.innerWidth := by
  have h : (0.5 : K) = 1 / 2 := by norm_num
  unfold screenX
  rw [h]
  ring

theorem screenY_eq (f : Frame K) (data : Sample K) :
    screenY f data = (1 - (data.y + 1) / 2) * f.innerHeight := by
  have h : (0.5 : K) = 1 / 2 := by norm_num
  unfold screenY
  rw [h]
  ring

/-- C19: for a tracked sample the cursor element, when the page has one, is
placed at `left = (x + 1) / 2 * W` and `top = (1 - (y + 1) / 2) * H`: `(-1, 1)`
goes to `(0, 0)`, `(1, -1)` to `(W, H)`, and for `x`, `y` in `[-1, 1]` and a
viewport of non-negative size the cursor lies in `[0, W] × [0, H]`. -/
theorem cursor_position_affine (sqrt : K → K) (f : Frame K) (w : World K) (data : Sample K)
    (c : Cursor K) (ht : data.is_tracking = true) (hc : w.cursor = some c) :
    (handleGestureData sqrt f w data).world.cursor = some (updateCursor f data c) ∧
    (updateCursor f data c).left = (data.x + 1) / 2 * f.innerWidth ∧
    (updateCursor f data c).top = (1 - (data.y + 1) / 2) * f.innerHeight ∧
    (data.x = -1 → data.y = 1 →
      (updateCursor f data c).left = 0 ∧ (updateCursor f data c).top = 0) ∧
    (data.x = 1 → data.y = -1 →
      (updateCursor f data c).left = f.innerWidth ∧
      (updateCursor f data c).top = f.innerHeight) ∧
    (0 ≤ f.innerWidth → -1 ≤ data.x → data.x ≤ 1 →
      0 ≤ (updateCursor f data c).left ∧ (updateCursor f data c).left ≤ f.innerWidth) ∧
    (0 ≤ f.innerHeight → -1 ≤ data.y → data.y ≤ 1 →
      0 ≤ (updateCursor f data c).top ∧ (updateCursor f data c).top ≤ f.innerHeight) := by
  obtain ⟨hl, htop⟩ := updateCursor_left_top f data c
  have hl' : (updateCursor f data c).left = (data.x + 1) / 2 * f.innerWidth := by
    rw [hl, screenX_eq]
  have ht' : (updateCursor f data c).top = (1 - (data.y + 1) / 2) * f.innerHeight := by
    rw [htop, screenY_eq]
  refine ⟨by rw [handleGestureData_cursor sqrt f w data ht, hc]; rfl, hl', ht', ?_, ?_, ?_, ?_⟩
  · intro hx hy
    rw [hl', ht', hx, hy]
    norm_num
  · intro hx hy
    rw [hl', ht', hx, hy]
    norm_num
  · intro hW h1 h2
    rw [hl']
    have a0 : 0 ≤ (data.x + 1) / 2 := by linarith
    have a1 : (data.x + 1) / 2 ≤ 1 := by linarith
    exact ⟨mul_nonneg a0 hW, mul_le_of_le_one_left hW a1⟩
  · intro hH h1 h2
    rw [ht']
    have a0 : 0 ≤ 1 - (data.y + 1) / 2 := by linarith
    have a1 : 1 - (data.y + 1) / 2 ≤ 1 := by linarith
    exact ⟨mul_nonneg a0 hH, mul_le_of_le_one_left hH a1⟩

theorem cursor_position_affine_witness :
    (worldAt ⟨0, 50, 100⟩).cursor = some ⟨0, 0, 0, 0, 0⟩ ∧
    (updateCursor emptySpace (tracked "GRAB" (1 / 2) (1 / 2) none) ⟨0, 0, 0, 0, 0⟩).left = 600 ∧
    (updateCursor emptySpace (tracked "GRAB" (1 / 2) (1 / 2) none) ⟨0, 0, 0, 0, 0⟩).top = 150 := by
  have h := cursor_position_affine sqrtExact emptySpace (worldAt ⟨0, 50, 100⟩)
    (tracked "GRAB" (1 / 2) (1 / 2) none) ⟨0, 0, 0, 0, 0⟩ rfl rfl
  refine ⟨rfl, ?_, ?_⟩
  · rw [h.2.1]
    norm_num [tracked, emptySpace]
  · rw [h.2.2.1]
    norm_num [tracked, emptySpace]

/-- C20: for a tracked POINT sample the ray is cast at the device point
`(x, -y)` (only the cast at that point enters the outcome); its viewport row
`(1 - (-y)) / 2 * H` is `H - screenY`, the mirror image of the cursor row about
the horizontal centre line, and for `H > 0` it is the cursor row exactly when
`y = 0`; its viewport column is the cursor column `screenX`. -/
theorem ray_row_mirrors_cursor_row (sqrt : K → K) (f : Frame K) (w : World K)
    (data : Sample K) (c : Cursor K) (ht : data.is_tracking = true)
    (hg : data.gesture = "POINT") (hc : w.cursor = some c) (hH : 0 < f.innerHeight) :
    handleGestureData sqrt f w data
      = handlePoint sqrt
          { f with intersectObjects := fun _ _ => f.intersectObjects (ndcX data) (ndcY data) }
          { w with cursor := w.cursor.map (updateCursor f data), debug := .mode data.gesture }
          data ∧
    ((handleGestureData sqrt f w data).world.cursor = some (updateCursor f data c) ∧
      (updateCursor f data c).top = screenY f data ∧
      (updateCursor f data c).left = screenX f data) ∧
    ndcRow f (ndcY data) = (1 - (-data.y)) / 2 * f.innerHeight ∧
    ndcRow f (ndcY data) = f.innerHeight - screenY f data ∧
    ndcRow f (ndcY data) - f.innerHeight / 2 = -(screenY f data - f.innerHeight / 2) ∧
    (ndcRow f (ndcY data) = screenY f data ↔ data.y = 0) ∧
    ndcColumn f (ndcX data) = screenX f data := by
  obtain ⟨hl, htop⟩ := updateCursor_left_top f data c
  have hrow : ndcRow f (ndcY data) = f.innerHeight - screenY f data := by
    rw [screenY_eq]
    unfold ndcRow ndcY
    ring
  refine ⟨?_, ⟨by rw [handleGestureData_cursor sqrt f w data ht, hc]; rfl, htop, hl⟩, rfl, hrow,
    by rw [hrow]; ring, ?_, ?_⟩
  · have e : handleGestureData sqrt f w data
        = handlePoint sqrt f
            { w with cursor := w.cursor.map (updateCursor f data), debug := .mode data.gesture }
            data := by
      simp [handleGestureData, ht, hg]
    rw [e]
    rfl
  · rw [hrow, screenY_eq]
    constructor
    · intro h
      have h2 : f.innerHeight * data.y = 0 := by linarith
      rcases mul_eq_zero.mp h2 with h3 | h3
      · exact absurd h3 (ne_of_gt hH)
      · exact h3
    · intro h
      rw [h]
      ring
  · rw [screenX_eq]
    rfl

theorem ray_row_mirrors_cursor_row_witness :
    (0 : ℚ) < (frameHitting 1 "Earth" ⟨30, 0, 0⟩).innerHeight ∧
    ndcRow (frameHitting 1 "Earth" ⟨30, 0, 0⟩) (ndcY (tracked "POINT" 0 (1 / 2) none)) = 450 ∧
    screenY (frameHitting 1 "Earth" ⟨30, 0, 0⟩) (tracked "POINT" 0 (1 / 2) none) = 150 := by
  have hH : (0 : ℚ) < (frameHitting 1 "Earth" ⟨30, 0, 0⟩).innerHeight := by
    norm_num [frameHitting, emptySpace]
  have h := ray_row_mirrors_cursor_row sqrtExact (frameHitting 1 "Earth" ⟨30, 0, 0⟩)
    (worldAt ⟨0, 50, 100⟩) (tracked "POINT" 0 (1 / 2) none) ⟨0, 0, 0, 0, 0⟩ rfl rfl rfl hH
  have hs : screenY (frameHitting 1 "Earth" ⟨30, 0, 0⟩) (tracked "POINT" 0 (1 / 2) none)
      = 150 := by
    norm_num [screenY, frameHitting, emptySpace, tracked]
  refine ⟨hH, ?_, hs⟩
  rw [h.2.2.2.1, hs]
  norm_num [frameHitting, emptySpace]

/-! ### Hovering a mesh -/

theorem setHex_of_some {e : Nat → Option Nat} {obj c : Nat} (hex : Nat) (h : e obj = some c) :
    setHex e obj hex = some (fun o => if o = obj then some hex else e o) := by
  simp [setHex, h]

theorem setHex_of_none {e : Nat → Option Nat} {obj : Nat} (hex : Nat) (h : e obj = none) :
    setHex e obj hex = none := by
  simp [setHex, h]

theorem nearestHit_eq_some (f : Frame K) (data : Sample K) (hit : Intersection K)
    (h : nearestHit f data = some hit) :
    ∃ rest, f.intersectObjects data.x (-data.y) = hit :: rest := by
  unfold nearestHit ndcX ndcY at h
  cases hl : f.intersectObjects data.x (-data.y) with
  | nil => simp [hl] at h
  | cons a rest =>
    simp [hl] at h
    exact ⟨rest, by rw [h]⟩

/-- A tracked POINT sample is handled by the hover code on the nearest hit, with
the pointer history released first (lines 160-162). -/
theorem handleGestureData_point_hit (sqrt : K → K) (f : Frame K) (w : World K)
    (data : Sample K) (hit : Intersection K) (ht : data.is_tracking = true)
    (hg : data.gesture = "POINT") (hhit : nearestHit f data = some hit) :
    handleGestureData sqrt f w data
      = handleHover sqrt
          { w with
            cursor := w.cursor.map (updateCursor f data)
            debug := .navigating
            handler := { w.handler with last := none, lastPinchDist := none } }
          hit := by
  obtain ⟨rest, hl⟩ := nearestHit_eq_some f data hit hhit
  simp [handleGestureData, handlePoint, ht, hg, hl]

/-- The hover code on a mesh whose material has an emissive colour, when the mesh
hovered before (if another one) has one too: it returns, counts one more dwell
tick, moves the highlight, and takes a fly-to step exactly when the new count
exceeds `30`. -/
theorem handleHover_step (sqrt : K → K) (w : World K) (hit : Intersection K) (c : Nat)
    (hem : w.emissive hit.object = some c)
    (hold : ∀ old, w.handler.hoveredPlanet = some old → old ≠ hit.object →
      ∃ c', w.emissive old = some c') :
    (handleHover sqrt w hit).isReturned = true ∧
    (handleHover sqrt w hit).world.handler
      = { w.handler with
          hoveredPlanet := some hit.object
          selectionTime := w.handler.selectionTime + 1 } ∧
    (handleHover sqrt w hit).world.emissive hit.object = some 0x444400 ∧
    (∀ old, w.handler.hoveredPlanet = some old → old ≠ hit.object →
      (handleHover sqrt w hit).world.emissive old = some 0x000000) ∧
    (∀ o, (handleHover sqrt w hit).world.emissive o = none ↔ w.emissive o = none) ∧
    (w.handler.selectionTime + 1 ≤ 30 →
      (handleHover sqrt w hit).world.sceneManager = w.sceneManager) ∧
    (30 < w.handler.selectionTime + 1 →
      (handleHover sqrt w hit).world.sceneManager.controls.target
        = w.sceneManager.controls.target.lerp hit.worldPosition 0.1 ∧
      (handleHover sqrt w hit).world.sceneManager.camera.position
        = w.sceneManager.camera.position.addScaledVector
            ((Vector3.subVectors hit.worldPosition w.sceneManager.camera.position).normalize
              sqrt) 1.0 ∧
      (handleHover sqrt w hit).world.sceneManager.currentGroup
        = w.sceneManager.currentGroup) := by
  -- the emissive map after line 182-184
  obtain ⟨e1, he1, he1obj, he1none, he1old⟩ :
      ∃ e1 : Nat → Option Nat,
        (match w.handler.hoveredPlanet with
          | some old => if old ≠ hit.object then setHex w.emissive old 0x000000 else some w.emissive
          | none => some w.emissive) = some e1 ∧
        e1 hit.object = some c ∧ (∀ o, e1 o = none ↔ w.emissive o = none) ∧
        (∀ old, w.handler.hoveredPlanet = some old → old ≠ hit.object →
          e1 old = some 0x000000) := by
    cases hh : w.handler.hoveredPlanet with
    | none => exact ⟨w.emissive, rfl, hem, fun _ => Iff.rfl, by simp⟩
    | some old =>
      by_cases ho : old = hit.object
      · refine ⟨w.emissive, by simp [ho], hem, fun _ => Iff.rfl, ?_⟩
        intro old' h1 h2
        simp only [Option.some.injEq] at h1
        exact absurd (h1 ▸ ho) h2
      · obtain ⟨c', hc'⟩ := hold old hh ho
        refine ⟨fun o => if o = old then some 0x000000 else w.emissive o, ?_, ?_, ?_, ?_⟩
        · simp [ho, setHex_of_some _ hc']
        · simp [Ne.symm ho, hem]
        · intro o
          by_cases h : o = old
          · simp [h, hc']
          · simp [h]
        · intro old' h1 _
          simp only [Option.some.injEq] at h1
          simp [h1]
  have he2 : setHex e1 hit.object 0x444400
      = some (fun o => if o = hit.object then some 0x444400 else e1 o) :=
    setHex_of_some _ he1obj
  unfold handleHover
  simp only [he1, he2]
  by_cases hs : 30 < w.handler.selectionTime + 1
  · simp only [hs, if_true, Outcome.world, Outcome.isReturned]
    refine ⟨trivial, trivial, by simp, ?_, ?_, fun h => absurd hs (not_lt.mpr h),
      fun _ => ⟨trivial, trivial, trivial⟩⟩
    · intro old h1 h2
      simp [h2, he1old old h1 h2]
    · intro o
      by_cases h : o = hit.object
      · simp [h, hem]
      · simp [h, he1none o]
  · simp only [hs, if_false, Outcome.world, Outcome.isReturned]
    refine ⟨trivial, trivial, by simp, ?_, ?_, fun _ => trivial, fun h => h.elim⟩
    · intro old h1 h2
      simp [h2, he1old old h1 h2]
    · intro o
      by_cases h : o = hit.object
      · simp [h, hem]
      · simp [h, he1none o]

/-- One sample hovering mesh `obj`, stated on the world before the call. -/
theorem handleGestureData_hover_step (sqrt : K → K) (f : Frame K) (w : World K)
    (data : Sample K) (obj c : Nat) (hh : Hovers obj (f, data))
    (hem : w.emissive obj = some c)
    (hold : ∀ old, w.handler.hoveredPlanet = some old → old ≠ obj →
      ∃ c', w.emissive old = some c') :
    ∃ hit, nearestHit f data = some hit ∧ hit.object = obj ∧
      (handleGestureData sqrt f w data).isReturned = true ∧
      (handleGestureData sqrt f w data).world.handler
        = { w.handler with
            last := none
            lastPinchDist := none
            hoveredPlanet := some obj
            selectionTime := w.handler.selectionTime + 1 } ∧
      (handleGestureData sqrt f w data).world.emissive obj = some 0x444400 ∧
      (∀ old, w.handler.hoveredPlanet = some old → old ≠ obj →
        (handleGestureData sqrt f w data).world.emissive old = some 0x000000) ∧
      (∀ o, (handleGestureData sqrt f w data).world.emissive o = none ↔ w.emissive o = none) ∧
      (w.handler.selectionTime + 1 ≤ 30 →
        (handleGestureData sqrt f w data).world.sceneManager = w.sceneManager) ∧
      (30 < w.handler.selectionTime + 1 →
        (handleGestureData sqrt f w data).world.sceneManager.controls.target
          = w.sceneManager.controls.target.lerp hit.worldPosition 0.1 ∧
        (handleGestureData sqrt f w data).world.sceneManager.camera.position
          = w.sceneManager.camera.position.addScaledVector
              ((Vector3.subVectors hit.worldPosition w.sceneManager.camera.position).normalize
                sqrt) 1.0 ∧
        (handleGestureData sqrt f w data).world.sceneManager.currentGroup
          = w.sceneManager.currentGroup) := by
  obtain ⟨ht, hg, hn⟩ := hh
  simp only [] at ht hg hn
  cases hhit : nearestHit f data with
  | none => simp [hhit] at hn
  | some hit =>
    have hobj : hit.object = obj := by simpa [hhit] using hn
    subst hobj
    refine ⟨hit, rfl, rfl, ?_⟩
    rw [handleGestureData_point_hit sqrt f w data hit ht hg hhit]
    exact handleHover_step sqrt _ hit c hem hold

/-- A run of samples that all hover mesh `obj`, whose material has an emissive
colour: every sample adds one dwell tick, the mesh ends up hovered and
highlighted, and the rig is not moved while the count is at most `30`. -/
theorem hover_run (sqrt : K → K) (obj : Nat) :
    ∀ (ticks : List (Frame K × Sample K)) (w : World K) (c : Nat),
      w.emissive obj = some c →
      (∀ old, w.handler.hoveredPlanet = some old → old ≠ obj →
        ∃ c', w.emissive old = some c') →
      (∀ fd ∈ ticks, Hovers obj fd) →
      (handleAll sqrt w ticks).handler.selectionTime
        = w.handler.selectionTime + ticks.length ∧
      (∃ c', (handleAll sqrt w ticks).emissive obj = some c') ∧
      (∀ old, (handleAll sqrt w ticks).handler.hoveredPlanet = some old → old ≠ obj →
        ∃ c', (handleAll sqrt w ticks).emissive old = some c') ∧
      (ticks ≠ [] →
        (handleAll sqrt w ticks).handler.hoveredPlanet = some obj ∧
        (handleAll sqrt w ticks).emissive obj = some 0x444400) ∧
      (w.handler.selectionTime + ticks.length ≤ 30 →
        (handleAll sqrt w ticks).sceneManager = w.sceneManager) := by
  intro ticks
  induction ticks with
  | nil =>
    intro w c hem hold _
    exact ⟨rfl, ⟨c, hem⟩, hold, fun h => absurd rfl h, fun _ => rfl⟩
  | cons fd rest ih =>
    intro w c hem hold hall
    obtain ⟨f, data⟩ := fd
    have hfd : Hovers obj (f, data) := hall (f, data) (List.mem_cons_self _ _)
    obtain ⟨hit, _, _, _, hh, he, _, _, hkeep, _⟩ :=
      handleGestureData_hover_step sqrt f w data obj c hfd hem hold
    have hold1 : ∀ old, (handleGestureData sqrt f w data).world.handler.hoveredPlanet = some old →
        old ≠ obj → ∃ c', (handleGestureData sqrt f w data).world.emissive old = some c' := by
      intro old h1 h2
      rw [hh] at h1
      simp only [Option.some.injEq] at h1
      exact absurd h1.symm h2
    have hrest : ∀ fd ∈ rest, Hovers obj fd := fun fd hm => hall fd (List.mem_cons_of_mem _ hm)
    obtain ⟨r1, r2, r3, r4, r5⟩ :=
      ih (handleGestureData sqrt f w data).world 0x444400 he hold1 hrest
    have hst : (handleGestureData sqrt f w data).world.handler.selectionTime
        = w.handler.selectionTime + 1 := by rw [hh]
    have hall_eq : handleAll sqrt w ((f, data) :: rest)
        = handleAll sqrt (handleGestureData sqrt f w data).world rest := rfl
    rw [hall_eq]
    refine ⟨?_, r2, r3, fun _ => ?_, fun hle => ?_⟩
    · rw [r1, hst, List.length_cons]
      omega
    · cases rest with
      | nil =>
        have hhov : (handleGestureData sqrt f w data).world.handler.hoveredPlanet = some obj := by
          rw [hh]
        exact ⟨hhov, he⟩
      | cons a l => exact r4 (List.cons_ne_nil _ _)
    · rw [List.length_cons] at hle
      rw [r5 (by rw [hst]; omega), hkeep (by omega)]

/-- What C12 describes, for a mesh whose material has an emissive colour: from a
dwell count of `0`, the `k`-th consecutive sample hovering the mesh returns with
dwell count `k` and the mesh highlighted; for `k ≤ 30` the rig is as it was at
the start, and for `k ≥ 31` the sample takes a fly-to step. -/
theorem hover_dwell_kth_sample (sqrt : K → K) (obj c : Nat) (w : World K)
    (before : List (Frame K × Sample K)) (f : Frame K) (data : Sample K)
    (h0 : w.handler.selectionTime = 0) (hem : w.emissive obj = some c)
    (hold : ∀ old, w.handler.hoveredPlanet = some old → old ≠ obj →
      ∃ c', w.emissive old = some c')
    (hbefore : ∀ fd ∈ before, Hovers obj fd) (hk : Hovers obj (f, data)) :
    (handleGestureData sqrt f (handleAll sqrt w before) data).isReturned = true ∧
    (handleGestureData sqrt f (handleAll sqrt w before) data).world.handler.selectionTime
      = before.length + 1 ∧
    (handleGestureData sqrt f (handleAll sqrt w before) data).world.handler.hoveredPlanet
      = some obj ∧
    (handleGestureData sqrt f (handleAll sqrt w before) data).world.emissive obj
      = some 0x444400 ∧
    (before.length + 1 ≤ 30 →
      (handleGestureData sqrt f (handleAll sqrt w before) data).world.sceneManager
        = w.sceneManager) ∧
    (31 ≤ before.length + 1 →
      ∃ hit, nearestHit f data = some hit ∧
        (handleGestureData sqrt f (handleAll sqrt w before) data).world.sceneManager.controls.target
          = (handleAll sqrt w before).sceneManager.controls.target.lerp hit.worldPosition 0.1 ∧
        (handleGestureData sqrt f (handleAll sqrt w before) data).world.sceneManager.camera.position
          = (handleAll sqrt w before).sceneManager.camera.position.addScaledVector
              ((Vector3.subVectors hit.worldPosition
                (handleAll sqrt w before).sceneManager.camera.position).normalize sqrt) 1.0) := by
  obtain ⟨r1, ⟨c1, r2⟩, r3, _, r5⟩ := hover_run sqrt obj before w c hem hold hbefore
  rw [h0, Nat.zero_add] at r1 r5
  obtain ⟨hit, hn, _, hret, hh, he, _, _, hkeep, hfly⟩ :=
    handleGestureData_hover_step sqrt f (handleAll sqrt w before) data obj c1 hk r2 r3
  rw [r1] at hkeep hfly
  refine ⟨hret, by rw [hh, r1], by rw [hh], he, fun hle => ?_, fun hge => ?_⟩
  · rw [hkeep hle, r5 (by omega)]
  · obtain ⟨t1, t2, _⟩ := hfly (by omega)
    exact ⟨hit, hn, t1, t2⟩

/-- C12: evaluated on the initial world, whose dwell count is `0`.  A POINT sample
at the centre of the view hits the Sun, whose `MeshBasicMaterial` has no
emissive colour: line 186 raises, the dwell count stays `0` after the first and
after the second sample, and the Sun is not highlighted. -/
theorem hover_over_sun_does_not_count :
    solarWorld.handler.selectionTime = 0 ∧
    (handleGestureData sqrtExact (frameHitting 0 "The Sun" ⟨0, 0, 0⟩) solarWorld
        (tracked "POINT" 0 0 none)).isReturned = false ∧
    (handleGestureData sqrtExact (frameHitting 0 "The Sun" ⟨0, 0, 0⟩) solarWorld
        (tracked "POINT" 0 0 none)).world.handler.selectionTime = 0 ∧
    (handleGestureData sqrtExact (frameHitting 0 "The Sun" ⟨0, 0, 0⟩) solarWorld
        (tracked "POINT" 0 0 none)).world.emissive 0 = none ∧
    (handleAll sqrtExact solarWorld
        [(frameHitting 0 "The Sun" ⟨0, 0, 0⟩, tracked "POINT" 0 0 none),
         (frameHitting 0 "The Sun" ⟨0, 0, 0⟩, tracked "POINT" 0 0 none)]).handler.selectionTime
      = 0 := by
  simp [handleAll, handleGestureData, handlePoint, handleHover, setHex, solarWorld, worldAt,
    frameHitting, emptySpace, tracked, GestureHandler.init, Outcome.world, Outcome.isReturned]

set_option maxRecDepth 4000 in
/-- C13: evaluated on the initial world.  After 30 samples hovering mesh 1 the
dwell count is `30` and nothing has moved.  The next sample hovers mesh 2: the
highlight moves from mesh 1 to mesh 2 and `hoveredPlanet` becomes mesh 2, but
the dwell count goes on to `31` instead of `0`, and the same sample already
flies to mesh 2 (the orbit target moves a tenth of the way to it). -/
theorem hover_change_keeps_dwell_count :
    (handleAll sqrtExact solarWorld
        (List.replicate 30 (frameHitting 1 "Earth" ⟨30, 0, 0⟩, tracked "POINT" 0 0 none))
      ).handler.selectionTime = 30 ∧
    (handleAll sqrtExact solarWorld
        (List.replicate 30 (frameHitting 1 "Earth" ⟨30, 0, 0⟩, tracked "POINT" 0 0 none))
      ).handler.hoveredPlanet = some 1 ∧
    (handleAll sqrtExact solarWorld
        (List.replicate 30 (frameHitting 1 "Earth" ⟨30, 0, 0⟩, tracked "POINT" 0 0 none))
      ).sceneManager.controls.target = ⟨0, 0, 0⟩ ∧
    (handleGestureData sqrtExact (frameHitting 2 "Mars" ⟨50, 0, 0⟩)
        (handleAll sqrtExact solarWorld
          (List.replicate 30 (frameHitting 1 "Earth" ⟨30, 0, 0⟩, tracked "POINT" 0 0 none)))
        (tracked "POINT" (1 / 4) 0 none)).world.handler.hoveredPlanet = some 2 ∧
    (handleGestureData sqrtExact (frameHitting 2 "Mars" ⟨50, 0, 0⟩)
        (handleAll sqrtExact solarWorld
          (List.replicate 30 (frameHitting 1 "Earth" ⟨30, 0, 0⟩, tracked "POINT" 0 0 none)))
        (tracked "POINT" (1 / 4) 0 none)).world.emissive 1 = some 0x000000 ∧
    (handleGestureData sqrtExact (frameHitting 2 "Mars" ⟨50, 0, 0⟩)
        (handleAll sqrtExact solarWorld
          (List.replicate 30 (frameHitting 1 "Earth" ⟨30, 0, 0⟩, tracked "POINT" 0 0 none)))
        (tracked "POINT" (1 / 4) 0 none)).world.emissive 2 = some 0x444400 ∧
    (handleGestureData sqrtExact (frameHitting 2 "Mars" ⟨50, 0, 0⟩)
        (handleAll sqrtExact solarWorld
          (List.replicate 30 (frameHitting 1 "Earth" ⟨30, 0, 0⟩, tracked "POINT" 0 0 none)))
        (tracked "POINT" (1 / 4) 0 none)).world.handler.selectionTime = 31 ∧
    (handleGestureData sqrtExact (frameHitting 2 "Mars" ⟨50, 0, 0⟩)
        (handleAll sqrtExact solarWorld
          (List.replicate 30 (frameHitting 1 "Earth" ⟨30, 0, 0⟩, tracked "POINT" 0 0 none)))
        (tracked "POINT" (1 / 4) 0 none)).world.sceneManager.controls.target = ⟨5, 0, 0⟩ := by
  simp [handleAll, List.replicate, handleGestureData, handlePoint, handleHover, setHex,
    solarWorld, worldAt, frameHitting, emptySpace, tracked, GestureHandler.init, Outcome.world,
    Vector3.lerp]
  norm_num

/-! ### Fly-to: the orbit target -/

theorem lerp_tenth_sub (t p : Vector3 K) :
    Vector3.subVectors p (t.lerp p 0.1) = (Vector3.subVectors p t).multiplyScalar 0.9 := by
  cases t
  cases p
  simp only [Vector3.lerp, Vector3.subVectors, Vector3.multiplyScalar, Vector3.mk.injEq]
  refine ⟨?_, ?_, ?_⟩ <;> norm_num <;> ring

theorem lerp_tenth_distanceToSquared (t p : Vector3 K) :
    (t.lerp p 0.1).distanceToSquared p = 0.81 * t.distanceToSquared p := by
  cases t
  cases p
  simp only [Vector3.lerp, Vector3.distanceToSquared]
  norm_num
  ring

theorem lerp_lerp_tenth (t p : Vector3 K) (s : K) :
    p.lerp (t.lerp p 0.1) s = p.lerp t (0.9 * s) := by
  cases t
  cases p
  simp only [Vector3.lerp, Vector3.mk.injEq]
  refine ⟨?_, ?_, ?_⟩ <;> norm_num <;> ring

theorem lerp_one (t p : Vector3 K) : p.lerp t 1 = t := by
  cases t
  cases p
  simp [Vector3.lerp]

theorem lerp_eq_self (t p : Vector3 K) (s : K) (hs : s ≠ 0) (h : p.lerp t s = p) : t = p := by
  cases t
  cases p
  simp only [Vector3.lerp, Vector3.mk.injEq, add_right_eq_self, mul_eq_zero, hs, or_false,
    sub_eq_zero] at h
  simp only [Vector3.mk.injEq]
  exact h

/-- The square root of `0.81 * x` is `0.9` times that of `x`. -/
theorem sqrt_scale (sqrt : K → K) (x y : K) (hx : SqrtAt sqrt x) (hy : SqrtAt sqrt y)
    (h : y = 0.81 * x) : sqrt y = 0.9 * sqrt x := by
  have h09 : (0 : K) ≤ 0.9 := by norm_num
  apply (mul_self_inj_of_nonneg hy.1 (mul_nonneg h09 hx.1)).1
  rw [hy.2, h]
  have : 0.9 * sqrt x * (0.9 * sqrt x) = 0.81 * (sqrt x * sqrt x) := by
    norm_num
    ring
  rw [this, hx.2]

/-- A run of fly-to ticks on mesh `obj`, whose world position stays `p`: after
`n` ticks the orbit target is `p + (t - p) * 0.9 ^ n`. -/
theorem fly_run_target (sqrt : K → K) (obj : Nat) (p : Vector3 K) :
    ∀ (ticks : List (Frame K × Sample K)) (w : World K) (c : Nat),
      w.emissive obj = some c → w.handler.hoveredPlanet = some obj →
      30 ≤ w.handler.selectionTime → (∀ fd ∈ ticks, HoversAt obj p fd) →
      (handleAll sqrt w ticks).sceneManager.controls.target
        = p.lerp w.sceneManager.controls.target (0.9 ^ ticks.length) := by
  intro ticks
  induction ticks with
  | nil =>
    intro w c _ _ _ _
    rw [List.length_nil, pow_zero, lerp_one]
    rfl
  | cons fd rest ih =>
    intro w c hem hhov hdw hall
    obtain ⟨f, data⟩ := fd
    obtain ⟨hfd, hpos⟩ := hall (f, data) (List.mem_cons_self _ _)
    have hold : ∀ old, w.handler.hoveredPlanet = some old → old ≠ obj →
        ∃ c', w.emissive old = some c' := by
      intro old h1 h2
      rw [hhov] at h1
      simp only [Option.some.injEq] at h1
      exact absurd h1.symm h2
    obtain ⟨hit, hn, _, _, hh, he, _, _, _, hfly⟩ :=
      handleGestureData_hover_step sqrt f w data obj c hfd hem hold
    have hp : hit.worldPosition = p := by
      simp only [] at hpos
      rw [hn] at hpos
      simpa using hpos
    obtain ⟨ht, _, _⟩ := hfly (by omega)
    have hrest : ∀ fd ∈ rest, HoversAt obj p fd := fun fd hm => hall fd (List.mem_cons_of_mem _ hm)
    have e : handleAll sqrt w ((f, data) :: rest)
        = handleAll sqrt (handleGestureData sqrt f w data).world rest := rfl
    rw [e, ih (handleGestureData sqrt f w data).world 0x444400 he (by rw [hh])
      (by rw [hh]; exact Nat.le_succ_of_le hdw) hrest, ht, hp, lerp_lerp_tenth, List.length_cons,
      pow_succ, mul_comm]

/-- C14: on a fly-to tick (the hovered mesh `obj`, at world position `p`, is
hovered again with the dwell count already at `30` or more) the orbit target
`t` becomes `t + (p - t) * 0.1`: the vector left to `p` is `0.9` times the old
one, so the new target is on the segment from `t` to `p`, and its distance to
`p` is `0.9` times the old distance wherever `sqrt` is the square root.  After
`n` such ticks the target is `p + (t - p) * 0.9 ^ n`, which is not `p` unless
`t` was. -/
theorem fly_to_target_approaches (sqrt : K → K) (w : World K) (obj c : Nat) (p : Vector3 K)
    (f : Frame K) (data : Sample K) (ticks : List (Frame K × Sample K))
    (hem : w.emissive obj = some c) (hhov : w.handler.hoveredPlanet = some obj)
    (hdw : 30 ≤ w.handler.selectionTime) (h1 : HoversAt obj p (f, data))
    (hall : ∀ fd ∈ ticks, HoversAt obj p fd) :
    (handleGestureData sqrt f w data).world.sceneManager.controls.target
      = w.sceneManager.controls.target.lerp p 0.1 ∧
    ((handleGestureData sqrt f w data).world.sceneManager.controls.target.x
        = w.sceneManager.controls.target.x + 0.1 * (p.x - w.sceneManager.controls.target.x) ∧
      (handleGestureData sqrt f w data).world.sceneManager.controls.target.y
        = w.sceneManager.controls.target.y + 0.1 * (p.y - w.sceneManager.controls.target.y) ∧
      (handleGestureData sqrt f w data).world.sceneManager.controls.target.z
        = w.sceneManager.controls.target.z + 0.1 * (p.z - w.sceneManager.controls.target.z)) ∧
    Vector3.subVectors p (handleGestureData sqrt f w data).world.sceneManager.controls.target
      = (Vector3.subVectors p w.sceneManager.controls.target).multiplyScalar 0.9 ∧
    (handleGestureData sqrt f w data).world.sceneManager.controls.target.distanceToSquared p
      = 0.81 * w.sceneManager.controls.target.distanceToSquared p ∧
    (SqrtAt sqrt (w.sceneManager.controls.target.distanceToSquared p) →
      SqrtAt sqrt
        ((handleGestureData sqrt f w data).world.sceneManager.controls.target.distanceToSquared
          p) →
      (handleGestureData sqrt f w data).world.sceneManager.controls.target.distanceTo sqrt p
        = 0.9 * w.sceneManager.controls.target.distanceTo sqrt p) ∧
    (handleAll sqrt w ticks).sceneManager.controls.target
      = p.lerp w.sceneManager.controls.target (0.9 ^ ticks.length) ∧
    (w.sceneManager.controls.target ≠ p →
      (handleAll sqrt w ticks).sceneManager.controls.target ≠ p) := by
  have hold : ∀ old, w.handler.hoveredPlanet = some old → old ≠ obj →
      ∃ c', w.emissive old = some c' := by
    intro old h2 h3
    rw [hhov] at h2
    simp only [Option.some.injEq] at h2
    exact absurd h2.symm h3
  obtain ⟨hit, hn, _, _, _, _, _, _, _, hfly⟩ :=
    handleGestureData_hover_step sqrt f w data obj c h1.1 hem hold
  have hp : hit.worldPosition = p := by
    have hpos := h1.2
    simp only [] at hpos
    rw [hn] at hpos
    simpa using hpos
  obtain ⟨ht, _, _⟩ := hfly (by omega)
  rw [hp] at ht
  have hrun := fly_run_target sqrt obj p ticks w c hem hhov hdw hall
  have hd2 := lerp_tenth_distanceToSquared w.sceneManager.controls.target p
  refine ⟨ht, ?_, by rw [ht, lerp_tenth_sub], by rw [ht, hd2], ?_, hrun, ?_⟩
  · rw [ht]
    simp only [Vector3.lerp]
    refine ⟨?_, ?_, ?_⟩ <;> ring
  · intro hx hy
    exact sqrt_scale sqrt _ _ hx hy (by rw [ht, hd2])
  · intro hne heq
    rw [hrun] at heq
    have h09 : (0.9 : K) ^ ticks.length ≠ 0 := pow_ne_zero _ (by norm_num)
    exact hne (lerp_eq_self _ _ _ h09 heq)

theorem isqrt_81 : isqrt 81 = 9 := by decide

theorem fly_to_target_approaches_witness :
    ((hovering 1 30 (worldAt ⟨0, 0, 100⟩)).emissive 1 = some 0 ∧
      (hovering 1 30 (worldAt ⟨0, 0, 100⟩)).handler.hoveredPlanet = some 1 ∧
      30 ≤ (hovering 1 30 (worldAt ⟨0, 0, 100⟩)).handler.selectionTime ∧
      HoversAt 1 ⟨10, 0, 0⟩ (frameHitting 1 "Earth" ⟨10, 0, 0⟩, tracked "POINT" 0 0 none)) ∧
    (handleGestureData sqrtExact (frameHitting 1 "Earth" ⟨10, 0, 0⟩)
        (hovering 1 30 (worldAt ⟨0, 0, 100⟩))
        (tracked "POINT" 0 0 none)).world.sceneManager.controls.target = ⟨1, 0, 0⟩ ∧
    (handleGestureData sqrtExact (frameHitting 1 "Earth" ⟨10, 0, 0⟩)
        (hovering 1 30 (worldAt ⟨0, 0, 100⟩))
        (tracked "POINT" 0 0 none)).world.sceneManager.controls.target.distanceTo sqrtExact
          ⟨10, 0, 0⟩ = 9 ∧
    (handleAll sqrtExact (hovering 1 30 (worldAt ⟨0, 0, 100⟩))
        [(frameHitting 1 "Earth" ⟨10, 0, 0⟩, tracked "POINT" 0 0 none),
         (frameHitting 1 "Earth" ⟨10, 0, 0⟩, tracked "POINT" 0 0 none)]
      ).sceneManager.controls.target = ⟨19 / 10, 0, 0⟩ := by
  have hh : HoversAt 1 (⟨10, 0, 0⟩ : Vector3 ℚ)
      (frameHitting 1 "Earth" ⟨10, 0, 0⟩, tracked "POINT" 0 0 none) := ⟨⟨rfl, rfl, rfl⟩, rfl⟩
  have hall : ∀ fd ∈ [(frameHitting 1 "Earth" (⟨10, 0, 0⟩ : Vector3 ℚ), tracked "POINT" 0 0 none),
      (frameHitting 1 "Earth" (⟨10, 0, 0⟩ : Vector3 ℚ), tracked "POINT" 0 0 none)],
      HoversAt 1 (⟨10, 0, 0⟩ : Vector3 ℚ) fd := by
    intro fd hfd
    simp only [List.mem_cons, List.mem_singleton, List.mem_nil_iff, or_false, or_self] at hfd
    rw [hfd]
    exact hh
  have h := fly_to_target_approaches sqrtExact (hovering 1 30 (worldAt ⟨0, 0, 100⟩)) 1 0
    ⟨10, 0, 0⟩ (frameHitting 1 "Earth" ⟨10, 0, 0⟩) (tracked "POINT" 0 0 none) _ rfl rfl
    (le_refl 30) hh hall
  have ht : (handleGestureData sqrtExact (frameHitting 1 "Earth" ⟨10, 0, 0⟩)
      (hovering 1 30 (worldAt ⟨0, 0, 100⟩))
      (tracked "POINT" 0 0 none)).world.sceneManager.controls.target = ⟨1, 0, 0⟩ := by
    rw [h.1]
    norm_num [Vector3.lerp, hovering, worldAt]
  have hd : (hovering 1 30 (worldAt ⟨0, 0, 100⟩)).sceneManager.controls.target.distanceTo
      sqrtExact ⟨10, 0, 0⟩ = 10 := by
    norm_num [hovering, worldAt, Vector3.distanceTo, Vector3.distanceToSquared, sqrtExact,
      isqrt_100, isqrt_one]
  have hs : SqrtAt sqrtExact
      ((hovering 1 30 (worldAt ⟨0, 0, 100⟩)).sceneManager.controls.target.distanceToSquared
        ⟨10, 0, 0⟩) := by
    unfold SqrtAt
    unfold Vector3.distanceTo at hd
    rw [hd]
    norm_num [hovering, worldAt, Vector3.distanceToSquared]
  have hs' : SqrtAt sqrtExact
      ((handleGestureData sqrtExact (frameHitting 1 "Earth" ⟨10, 0, 0⟩)
        (hovering 1 30 (worldAt ⟨0, 0, 100⟩))
        (tracked "POINT" 0 0 none)).world.sceneManager.controls.target.distanceToSquared
          ⟨10, 0, 0⟩) := by
    rw [ht]
    norm_num [SqrtAt, Vector3.distanceToSquared, sqrtExact, isqrt_81, isqrt_one]
  refine ⟨⟨rfl, rfl, le_refl 30, hh⟩, ht, ?_, ?_⟩
  · rw [h.2.2.2.2.1 hs hs', hd]
    norm_num
  · rw [h.2.2.2.2.2.1]
    norm_num [Vector3.lerp, hovering, worldAt]

/-! ### Fly-to: the camera -/

theorem lengthSq_subVectors (p c : Vector3 K) :
    (Vector3.subVectors p c).lengthSq = c.distanceToSquared p := by
  simp only [Vector3.subVectors, Vector3.lengthSq, Vector3.distanceToSquared]
  ring

theorem distanceToSquared_self (a : Vector3 K) : a.distanceToSquared a = 0 := by
  simp [Vector3.distanceToSquared]

theorem distanceToSquared_pos (c p : Vector3 K) (h : c ≠ p) : 0 < c.distanceToSquared p := by
  have hx := mul_self_nonneg (c.x - p.x)
  have hy := mul_self_nonneg (c.y - p.y)
  have hz := mul_self_nonneg (c.z - p.z)
  have h0 : 0 ≤ c.distanceToSquared p := by
    simp only [Vector3.distanceToSquared]
    linarith
  rcases lt_or_eq_of_le h0 with hlt | heq
  · exact hlt
  · exfalso
    apply h
    simp only [Vector3.distanceToSquared] at heq
    have ex : (c.x - p.x) * (c.x - p.x) = 0 := by linarith
    have ey : (c.y - p.y) * (c.y - p.y) = 0 := by linarith
    have ez : (c.z - p.z) * (c.z - p.z) = 0 := by linarith
    have e1 := sub_eq_zero.mp (mul_self_eq_zero.mp ex)
    have e2 := sub_eq_zero.mp (mul_self_eq_zero.mp ey)
    have e3 := sub_eq_zero.mp (mul_self_eq_zero.mp ez)
    cases c
    cases p
    simp only [Vector3.mk.injEq]
    exact ⟨e1, e2, e3⟩

/-- At the hovered mesh the direction is the zero vector and the camera stays. -/
theorem fly_step_at_target (sqrt : K → K) (c : Vector3 K) :
    c.addScaledVector ((Vector3.subVectors c c).normalize sqrt) 1.0 = c := by
  cases c
  simp [Vector3.addScaledVector, Vector3.normalize, Vector3.subVectors, Vector3.divideScalar,
    Vector3.multiplyScalar]

/-- Away from the hovered mesh `normalize` divides by the distance. -/
theorem normalize_of_ne (sqrt : K → K) (c p : Vector3 K) (h : c ≠ p)
    (hs : SqrtAt sqrt (c.distanceToSquared p)) :
    0 < c.distanceTo sqrt p ∧
    (Vector3.subVectors p c).normalize sqrt
      = (Vector3.subVectors p c).multiplyScalar (1 / c.distanceTo sqrt p) := by
  have hpos := distanceToSquared_pos c p h
  have hd0 : c.distanceTo sqrt p ≠ 0 := by
    intro h0
    unfold Vector3.distanceTo at h0
    have := hs.2
    rw [h0, mul_zero] at this
    exact absurd this (ne_of_lt hpos)
  have hlen : (Vector3.subVectors p c).length sqrt = c.distanceTo sqrt p := by
    unfold Vector3.length Vector3.distanceTo
    rw [lengthSq_subVectors]
  refine ⟨lt_of_le_of_ne hs.1 (Ne.symm hd0), ?_⟩
  unfold Vector3.normalize Vector3.divideScalar
  rw [hlen, if_neg hd0]

/-- The step of length one along `(p - c) / d`, where `d * d` is the squared
distance from `c` to `p`. -/
theorem unit_step_facts (c p : Vector3 K) (d : K) (hd : d * d = c.distanceToSquared p)
    (hd0 : d ≠ 0) :
    ((Vector3.subVectors p c).multiplyScalar (1 / d)).lengthSq = 1 ∧
    (c.addScaledVector ((Vector3.subVectors p c).multiplyScalar (1 / d)) 1.0).distanceToSquared c
      = 1 ∧
    (c.addScaledVector ((Vector3.subVectors p c).multiplyScalar (1 / d)) 1.0).distanceToSquared p
      = (d - 1) ^ 2 := by
  have hde : d * (1 / d) = 1 := mul_one_div_cancel hd0
  have h1 : (1.0 : K) = 1 := by norm_num
  rw [h1]
  cases c
  cases p
  simp only [Vector3.subVectors, Vector3.multiplyScalar, Vector3.lengthSq,
    Vector3.addScaledVector, Vector3.distanceToSquared] at hd ⊢
  generalize 1 / d = e at hde ⊢
  refine ⟨?_, ?_, ?_⟩
  · linear_combination (-(e ^ 2)) * hd + (d * e + 1) * hde
  · linear_combination (-(e ^ 2)) * hd + (d * e + 1) * hde
  · linear_combination (-((e - 1) ^ 2)) * hd + (d * e + 1 - 2 * d) * hde

/-- C15: on a fly-to tick the camera position `c` becomes
`c + normalize (p - c) * 1.0`, where `p` is the world position of the hovered
mesh.  At `c = p` it stays.  Otherwise, where `sqrt` is the square root of the
squared distance, the direction is `(p - c) / d` with `d` the distance from `c`
to `p`, it has length one, the camera moves by exactly one unit, the squared
distance to `p` becomes `(d - 1) ^ 2`, and the distance becomes `|d - 1|`.  In
both cases the step is at most one unit long. -/
theorem fly_to_camera_unit_step (sqrt : K → K) (w : World K) (obj c : Nat) (p : Vector3 K)
    (f : Frame K) (data : Sample K)
    (hem : w.emissive obj = some c) (hhov : w.handler.hoveredPlanet = some obj)
    (hdw : 30 ≤ w.handler.selectionTime) (h1 : HoversAt obj p (f, data))
    (hs : SqrtAt sqrt (w.sceneManager.camera.position.distanceToSquared p)) :
    (handleGestureData sqrt f w data).world.sceneManager.camera.position
      = w.sceneManager.camera.position.addScaledVector
          ((Vector3.subVectors p w.sceneManager.camera.position).normalize sqrt) 1.0 ∧
    (w.sceneManager.camera.position = p →
      (handleGestureData sqrt f w data).world.sceneManager.camera.position
        = w.sceneManager.camera.position) ∧
    (w.sceneManager.camera.position ≠ p →
      (Vector3.subVectors p w.sceneManager.camera.position).normalize sqrt
        = (Vector3.subVectors p w.sceneManager.camera.position).multiplyScalar
            (1 / w.sceneManager.camera.position.distanceTo sqrt p) ∧
      ((Vector3.subVectors p w.sceneManager.camera.position).normalize sqrt).lengthSq = 1 ∧
      (handleGestureData sqrt f w data).world.sceneManager.camera.position.distanceToSquared
          w.sceneManager.camera.position = 1 ∧
      (handleGestureData sqrt f w data).world.sceneManager.camera.position
        ≠ w.sceneManager.camera.position ∧
      (handleGestureData sqrt f w data).world.sceneManager.camera.position.distanceToSquared p
        = (w.sceneManager.camera.position.distanceTo sqrt p - 1) ^ 2 ∧
      (SqrtAt sqrt
          ((handleGestureData sqrt f w data).world.sceneManager.camera.position.distanceToSquared
            p) →
        (handleGestureData sqrt f w data).world.sceneManager.camera.position.distanceTo sqrt p
          = |w.sceneManager.camera.position.distanceTo sqrt p - 1|)) ∧
    (handleGestureData sqrt f w data).world.sceneManager.camera.position.distanceToSquared
        w.sceneManager.camera.position ≤ 1 := by
  have hold : ∀ old, w.handler.hoveredPlanet = some old → old ≠ obj →
      ∃ c', w.emissive old = some c' := by
    intro old h2 h3
    rw [hhov] at h2
    simp only [Option.some.injEq] at h2
    exact absurd h2.symm h3
  obtain ⟨hit, hn, _, _, _, _, _, _, _, hfly⟩ :=
    handleGestureData_hover_step sqrt f w data obj c h1.1 hem hold
  have hp : hit.worldPosition = p := by
    have hpos := h1.2
    simp only [] at hpos
    rw [hn] at hpos
    simpa using hpos
  obtain ⟨_, hc, _⟩ := hfly (by omega)
  rw [hp] at hc
  have hstay : w.sceneManager.camera.position = p →
      (handleGestureData sqrt f w data).world.sceneManager.camera.position
        = w.sceneManager.camera.position := by
    intro he
    rw [hc, ← he, fly_step_at_target]
  have hmove : w.sceneManager.camera.position ≠ p →
      (Vector3.subVectors p w.sceneManager.camera.position).normalize sqrt
        = (Vector3.subVectors p w.sceneManager.camera.position).multiplyScalar
            (1 / w.sceneManager.camera.position.distanceTo sqrt p) ∧
      ((Vector3.subVectors p w.sceneManager.camera.position).normalize sqrt).lengthSq = 1 ∧
      (handleGestureData sqrt f w data).world.sceneManager.camera.position.distanceToSquared
          w.sceneManager.camera.position = 1 ∧
      (handleGestureData sqrt f w data).world.sceneManager.camera.position.distanceToSquared p
        = (w.sceneManager.camera.position.distanceTo sqrt p - 1) ^ 2 := by
    intro hne
    obtain ⟨hd, hnorm⟩ := normalize_of_ne sqrt _ p hne hs
    obtain ⟨u1, u2, u3⟩ := unit_step_facts w.sceneManager.camera.position p
      (w.sceneManager.camera.position.distanceTo sqrt p) hs.2 (ne_of_gt hd)
    rw [hc, hnorm]
    exact ⟨rfl, u1, u2, u3⟩
  refine ⟨hc, hstay, fun hne => ?_, ?_⟩
  · obtain ⟨m1, m2, m3, m4⟩ := hmove hne
    refine ⟨m1, m2, m3, ?_, m4, ?_⟩
    · intro heq
      rw [heq, distanceToSquared_self] at m3
      exact zero_ne_one m3
    · intro hs'
      have hsq : (handleGestureData sqrt f w data).world.sceneManager.camera.position.distanceTo
          sqrt p ^ 2 = (w.sceneManager.camera.position.distanceTo sqrt p - 1) ^ 2 := by
        rw [← m4, pow_two]
        exact hs'.2
      have h0 : 0 ≤ (handleGestureData sqrt f w data).world.sceneManager.camera.position.distanceTo
          sqrt p := hs'.1
      have habs := (sq_eq_sq_iff_abs_eq_abs _ _).1 hsq
      rw [abs_of_nonneg h0] at habs
      exact habs
  · by_cases he : w.sceneManager.camera.position = p
    · rw [hstay he, distanceToSquared_self]
      exact zero_le_one
    · exact le_of_eq (hmove he).2.2.1

theorem fly_to_camera_unit_step_witness :
    ((hovering 1 30 (worldAt ⟨0, 0, 10⟩)).emissive 1 = some 0 ∧
      (hovering 1 30 (worldAt ⟨0, 0, 10⟩)).handler.hoveredPlanet = some 1 ∧
      30 ≤ (hovering 1 30 (worldAt ⟨0, 0, 10⟩)).handler.selectionTime ∧
      HoversAt 1 ⟨0, 0, 0⟩ (frameHitting 1 "Earth" ⟨0, 0, 0⟩, tracked "POINT" 0 0 none) ∧
      SqrtAt sqrtExact
        ((hovering 1 30 (worldAt ⟨0, 0, 10⟩)).sceneManager.camera.position.distanceToSquared
          ⟨0, 0, 0⟩)) ∧
    (hovering 1 30 (worldAt ⟨0, 0, 10⟩)).sceneManager.camera.position.distanceTo sqrtExact
      ⟨0, 0, 0⟩ = 10 ∧
    (handleGestureData sqrtExact (frameHitting 1 "Earth" ⟨0, 0, 0⟩)
        (hovering 1 30 (worldAt ⟨0, 0, 10⟩))
        (tracked "POINT" 0 0 none)).world.sceneManager.camera.position = ⟨0, 0, 9⟩ := by
  have hh : HoversAt 1 (⟨0, 0, 0⟩ : Vector3 ℚ)
      (frameHitting 1 "Earth" ⟨0, 0, 0⟩, tracked "POINT" 0 0 none) := ⟨⟨rfl, rfl, rfl⟩, rfl⟩
  have hd : (hovering 1 30 (worldAt ⟨0, 0, 10⟩)).sceneManager.camera.position.distanceTo
      sqrtExact ⟨0, 0, 0⟩ = 10 := by
    norm_num [hovering, worldAt, Vector3.distanceTo, Vector3.distanceToSquared, sqrtExact,
      isqrt_100, isqrt_one]
  have hs : SqrtAt sqrtExact
      ((hovering 1 30 (worldAt ⟨0, 0, 10⟩)).sceneManager.camera.position.distanceToSquared
        ⟨0, 0, 0⟩) := by
    unfold SqrtAt
    unfold Vector3.distanceTo at hd
    rw [hd]
    norm_num [hovering, worldAt, Vector3.distanceToSquared]
  have hne : (hovering 1 30 (worldAt ⟨0, 0, 10⟩)).sceneManager.camera.position
      ≠ (⟨0, 0, 0⟩ : Vector3 ℚ) := by
    norm_num [hovering, worldAt]
  have h := fly_to_camera_unit_step sqrtExact (hovering 1 30 (worldAt ⟨0, 0, 10⟩)) 1 0
    ⟨0, 0, 0⟩ (frameHitting 1 "Earth" ⟨0, 0, 0⟩) (tracked "POINT" 0 0 none) rfl rfl
    (le_refl 30) hh hs
  refine ⟨⟨rfl, rfl, le_refl 30, hh, hs⟩, hd, ?_⟩
  rw [h.1, (h.2.2.1 hne).1, hd]
  norm_num [hovering, worldAt, Vector3.addScaledVector, Vector3.subVectors,
    Vector3.multiplyScalar]

/-! ### GRAB samples below the rotation threshold -/

/-- A tracked GRAB sample that arrives with a pointer latched and moves by at
most `0.0001` on both axes returns with the scene manager as it was and its own
pointer latched. -/
theorem handleGestureData_grab_below (sqrt : K → K) (f : Frame K) (w : World K)
    (data : Sample K) (prev : K × K) (hl : w.handler.last = some prev)
    (ht : data.is_tracking = true) (hg : data.gesture = "GRAB")
    (hx : |data.x - prev.1| ≤ 0.0001) (hy : |data.y - prev.2| ≤ 0.0001) :
    (handleGestureData sqrt f w data).isReturned = true ∧
    (handleGestureData sqrt f w data).world.sceneManager = w.sceneManager ∧
    (handleGestureData sqrt f w data).world.handler.last = some (data.x, data.y) := by
  obtain ⟨px, py⟩ := prev
  simp only [] at hx hy
  have hno : ¬ (|data.x - px| > 0.0001 ∨ |data.y - py| > 0.0001) := by
    rw [not_or]
    exact ⟨not_lt.mpr hx, not_lt.mpr hy⟩
  simp [handleGestureData, handleGrab, ht, hg, hl, hno, Outcome.world, Outcome.isReturned]

/-- A run of GRAB samples that stay below the threshold step by step leaves the
scene manager as it was and ends with the last pointer latched. -/
theorem grab_run_below (sqrt : K → K) :
    ∀ (ticks : List (Frame K × Sample K)) (w : World K) (prev : K × K),
      w.handler.last = some prev → SubThreshold prev ticks →
      (handleAll sqrt w ticks).sceneManager = w.sceneManager ∧
      (handleAll sqrt w ticks).handler.last = some (finalPointer prev ticks) := by
  intro ticks
  induction ticks with
  | nil =>
    intro w prev hl _
    exact ⟨rfl, hl⟩
  | cons fd rest ih =>
    intro w prev hl hrun
    obtain ⟨f, data⟩ := fd
    obtain ⟨ht, hg, hx, hy, hrest⟩ := hrun
    obtain ⟨_, hs, hlast⟩ := handleGestureData_grab_below sqrt f w data prev hl ht hg hx hy
    obtain ⟨r1, r2⟩ := ih (handleGestureData sqrt f w data).world (data.x, data.y) hlast hrest
    have e : handleAll sqrt w ((f, data) :: rest)
        = handleAll sqrt (handleGestureData sqrt f w data).world rest := rfl
    rw [e]
    exact ⟨by rw [r1, hs], r2⟩

theorem creep_subThreshold (f : Frame K) (y : K) :
    ∀ (n : Nat) (x : K), SubThreshold (x, y) (creep f x y n) := by
  intro n
  induction n with
  | zero =>
    intro x
    trivial
  | succ n ih =>
    intro x
    have h0 : |x + 0.0001 - x| ≤ (0.0001 : K) := by
      rw [add_sub_cancel_left, abs_of_pos (by norm_num)]
    have h1 : |y - y| ≤ (0.0001 : K) := by
      rw [sub_self, abs_zero]
      norm_num
    exact ⟨rfl, rfl, h0, h1, ih (x + 0.0001)⟩

theorem creep_finalPointer (f : Frame K) (y : K) :
    ∀ (n : Nat) (x : K), finalPointer (x, y) (creep f x y n) = (x + n * 0.0001, y) := by
  intro n
  induction n with
  | zero =>
    intro x
    simp [creep, finalPointer]
  | succ n ih =>
    intro x
    have e : finalPointer (x, y) (creep f x y (n + 1))
        = finalPointer (x + 0.0001, y) (creep f (x + 0.0001) y n) := rfl
    rw [e, ih (x + 0.0001)]
    push_cast
    congr 1
    ring

/-- C21: a tracked GRAB sample that arrives with a pointer latched and whose
delta is at most `0.0001` in magnitude on both axes leaves the scene rotation
as it was and still latches its own pointer.  Hence a run of GRAB samples each
of which is below the threshold on both axes leaves the rotation as it was,
whatever the distance between the first and the last pointer: `n` steps of
`0.0001` along x carry the pointer `n * 0.0001` away and turn nothing. -/
theorem sub_threshold_grab_keeps_rotation (sqrt : K → K) (f : Frame K) (w : World K)
    (data : Sample K) (lastX lastY : K) (ticks : List (Frame K × Sample K))
    (hl : w.handler.last = some (lastX, lastY))
    (ht : data.is_tracking = true) (hg : data.gesture = "GRAB")
    (hx : |data.x - lastX| ≤ 0.0001) (hy : |data.y - lastY| ≤ 0.0001)
    (hrun : SubThreshold (lastX, lastY) ticks) :
    ((handleGestureData sqrt f w data).world.sceneManager.currentGroup.rotation
        = w.sceneManager.currentGroup.rotation ∧
      (handleGestureData sqrt f w data).world.handler.lastX = some data.x ∧
      (handleGestureData sqrt f w data).world.handler.lastY = some data.y) ∧
    ((handleAll sqrt w ticks).sceneManager.currentGroup.rotation
        = w.sceneManager.currentGroup.rotation ∧
      (handleAll sqrt w ticks).handler.last = some (finalPointer (lastX, lastY) ticks)) ∧
    (∀ n : Nat,
      (handleAll sqrt w (creep f lastX lastY n)).sceneManager.currentGroup.rotation
        = w.sceneManager.currentGroup.rotation ∧
      (handleAll sqrt w (creep f lastX lastY n)).handler.lastX
        = some (lastX + n * 0.0001)) := by
  obtain ⟨_, hs, hlast⟩ :=
    handleGestureData_grab_below sqrt f w data (lastX, lastY) hl ht hg hx hy
  obtain ⟨r1, r2⟩ := grab_run_below sqrt ticks w (lastX, lastY) hl hrun
  refine ⟨⟨by rw [hs], ?_, ?_⟩, ⟨by rw [r1], r2⟩, fun n => ?_⟩
  · simp [GestureHandler.lastX, hlast]
  · simp [GestureHandler.lastY, hlast]
  · obtain ⟨c1, c2⟩ := grab_run_below sqrt (creep f lastX lastY n) w (lastX, lastY) hl
      (creep_subThreshold f lastY n lastX)
    rw [creep_finalPointer] at c2
    exact ⟨by rw [c1], by simp [GestureHandler.lastX, c2]⟩

theorem sub_threshold_grab_keeps_rotation_witness :
    ((latched 0 0 solarWorld).handler.last = some (0, 0) ∧
      |(tracked "GRAB" (1 / 10000) 0 none).x - 0| ≤ 0.0001 ∧
      |(tracked "GRAB" (1 / 10000) 0 none).y - 0| ≤ 0.0001 ∧
      SubThreshold ((0 : ℚ), (0 : ℚ))
        [(emptySpace, tracked "GRAB" (1 / 10000) 0 none),
         (emptySpace, tracked "GRAB" (2 / 10000) (1 / 10000) none),
         (emptySpace, tracked "GRAB" (3 / 10000) (2 / 10000) none)]) ∧
    (handleAll sqrtExact (latched 0 0 solarWorld)
        [(emptySpace, tracked "GRAB" (1 / 10000) 0 none),
         (emptySpace, tracked "GRAB" (2 / 10000) (1 / 10000) none),
         (emptySpace, tracked "GRAB" (3 / 10000) (2 / 10000) none)]
      ).sceneManager.currentGroup.rotation
      = (latched 0 0 solarWorld).sceneManager.currentGroup.rotation ∧
    (handleAll sqrtExact (latched 0 0 solarWorld)
        [(emptySpace, tracked "GRAB" (1 / 10000) 0 none),
         (emptySpace, tracked "GRAB" (2 / 10000) (1 / 10000) none),
         (emptySpace, tracked "GRAB" (3 / 10000) (2 / 10000) none)]
      ).handler.last = some (3 / 10000, 2 / 10000) ∧
    (handleAll sqrtExact (latched 0 0 solarWorld)
        (creep emptySpace 0 0 10000)).handler.lastX = some (0 + ((10000 : ℕ) : ℚ) * 0.0001) := by
  have hx : |(tracked "GRAB" (1 / 10000) 0 none).x - 0| ≤ (0.0001 : ℚ) := by
    norm_num [tracked, abs_of_pos]
  have hy : |(tracked "GRAB" (1 / 10000) 0 none).y - 0| ≤ (0.0001 : ℚ) := by
    norm_num [tracked]
  have hrun : SubThreshold ((0 : ℚ), (0 : ℚ))
      [(emptySpace, tracked "GRAB" (1 / 10000) 0 none),
       (emptySpace, tracked "GRAB" (2 / 10000) (1 / 10000) none),
       (emptySpace, tracked "GRAB" (3 / 10000) (2 / 10000) none)] := by
    norm_num [SubThreshold, tracked, abs_of_pos]
  have h := sub_threshold_grab_keeps_rotation sqrtExact emptySpace (latched 0 0 solarWorld)
    (tracked "GRAB" (1 / 10000) 0 none) 0 0 _ rfl rfl rfl hx hy hrun
  exact ⟨⟨rfl, hx, hy, hrun⟩, h.2.1.1, h.2.1.2, (h.2.2 10000).2⟩

end Theorems

end CerberusOrbit
